import Mathlib

/-!
# Window registry and event dispatch of `window.cpp`

A shallow embedding of the two implemented platform branches of `window.cpp`
(`_WIN32` and `__linux__`) and of the record type of `window.hpp`.

Modelling conventions.

* `g_windows` (a `std::unordered_map<WindowHandle, WindowData*>`) is a finite map,
  written as a function into `Option`.  Each record is owned by exactly one key, so a
  write through the stored pointer is an update of the entry of that key.
* Handles and the display pointer are natural numbers, `0` being null.
* The native layer is not part of the source.  Results of native calls are arguments of
  the embedded function (`hwnd`, `registerOk`, `dpy`, ...) and the native calls issued on
  a window are appended to the `calls` log of the state.
* The native event queue is the `queue` field, each entry addressed to a window.  The
  retrieval calls are modelled after their libraries.  `XCheckWindowEvent` hands over the
  events of the window whose type has a non-zero entry in the event mask table of Xlib; a
  `ClientMessage` has none and stays queued.  `PostQuitMessage` sets the quit flag of the
  thread; whether a `PeekMessageA` filtered by window yields the quit message made from
  that flag is a property of the native layer that the source does not fix, so it is the
  field `quitThroughFilter` of the state and every statement covers both values.
* `WindowProc` is entered through `DispatchMessageA` only; messages the native layer
  sends from inside other native calls are outside the model.
-/

namespace JPWindow

/-- Native window identifier: `HWND` on Win32, `Window` on X11.  `0` is the null handle. -/
abbrev WindowHandle := Nat

/-- Record `WindowData` of `window.hpp`.  The field `display` exists in the Linux build
only; the Win32 branch never reads it and stores `0`. -/
structure WindowData where
  handle : WindowHandle
  shouldClose : Bool
  title : String
  width : Int
  height : Int
  display : Nat
  deriving DecidableEq

/-- Type of the global registry `g_windows`. -/
abbrev Registry := WindowHandle → Option WindowData

/-- Registry of a fresh process: no window. -/
def Registry.none : Registry := fun _ => Option.none

/-- Assignment `g_windows[k] = d`. -/
def Registry.insert (r : Registry) (k : WindowHandle) (d : WindowData) : Registry :=
  fun x => if x = k then some d else r x

/-- Call `g_windows.erase(it)` for the entry of `k`. -/
def Registry.erase (r : Registry) (k : WindowHandle) : Registry :=
  fun x => if x = k then Option.none else r x

/-- Write `data->shouldClose = true` through the record pointer of `k`. -/
def Registry.close (r : Registry) (k : WindowHandle) : Registry :=
  match r k with
  | some d => r.insert k { d with shouldClose := true }
  | Option.none => r

/-- Native calls that the embedded functions issue, in program order. -/
inductive NativeCall where
  | DefWindowProc (hwnd : WindowHandle) (uMsg wParam lParam : Nat)
  | PostQuitMessage (code : Int)
  | Paint (hwnd : WindowHandle)
  | ShowWindow (hwnd : WindowHandle)
  | UpdateWindow (hwnd : WindowHandle)
  | DestroyWindow (hwnd : WindowHandle)
  | SetWindowTextA (hwnd : WindowHandle) (title : String)
  | XStoreName (w : WindowHandle) (title : String)
  | XSelectInput (w : WindowHandle)
  | XSetWMProtocols (w : WindowHandle)
  | XMapWindow (w : WindowHandle)
  | XDestroyWindow (w : WindowHandle)
  | XFlush
  | cerr (msg : String)
  deriving DecidableEq

/-! ## Win32 branch -/

namespace Win32

/-- Message numbers of `windows.h`. -/
def WM_DESTROY : Nat := 2
def WM_SIZE : Nat := 5
def WM_PAINT : Nat := 15
def WM_CLOSE : Nat := 16
def WM_QUIT : Nat := 18

/-- Native `MSG`; `lParam` is the unsigned bit pattern of the parameter. -/
structure MSG where
  hwnd : WindowHandle
  message : Nat
  wParam : Nat
  lParam : Nat
  deriving DecidableEq

/-- Process state of the Win32 build.  The fields `g_windows` and `g_classRegistered` are
the globals of `window.cpp`.  The others are the native layer: the posted messages, the
quit flag of the thread (set by `PostQuitMessage`), the log of native calls, and
`quitThroughFilter`, which tells whether a `PeekMessageA` filtered by window yields the
quit message of the thread.  No function writes `quitThroughFilter`. -/
structure State where
  g_windows : Registry
  g_classRegistered : Bool
  queue : List MSG
  quitPosted : Bool
  quitThroughFilter : Bool
  calls : List NativeCall

/-- State at process start, on a native layer with the given `quitThroughFilter`. -/
def init (quitThroughFilter : Bool) : State :=
  { g_windows := Registry.none, g_classRegistered := false, queue := [],
    quitPosted := false, quitThroughFilter := quitThroughFilter, calls := [] }

/-- Low word of a message parameter, as the `LOWORD` of `windows.h`. -/
def LOWORD (l : Nat) : Nat := l % 65536

/-- High word of a message parameter, as the `HIWORD` of `windows.h`. -/
def HIWORD (l : Nat) : Nat := (l / 65536) % 65536

/-- Callback `WindowProc`.  The `LRESULT` is dropped: `DispatchMessageA` is its only
caller here and `jp_poll_events` ignores the value.  `PostQuitMessage(0)` sets the quit
flag of the thread. -/
def WindowProc (s : State) (hwnd : WindowHandle) (uMsg wParam lParam : Nat) : State :=
  match s.g_windows hwnd with
  | none => { s with calls := s.calls ++ [NativeCall.DefWindowProc hwnd uMsg wParam lParam] }
  | some data =>
    if uMsg = WM_CLOSE then
      { s with g_windows := s.g_windows.insert hwnd { data with shouldClose := true } }
    else if uMsg = WM_DESTROY then
      { s with quitPosted := true, calls := s.calls ++ [NativeCall.PostQuitMessage 0] }
    else if uMsg = WM_SIZE then
      let data1 : WindowData :=
        { data with width := (LOWORD lParam : Nat), height := (HIWORD lParam : Nat) }
      { s with g_windows := s.g_windows.insert hwnd data1 }
    else if uMsg = WM_PAINT then
      { s with calls := s.calls ++ [NativeCall.Paint hwnd] }
    else
      { s with calls := s.calls ++ [NativeCall.DefWindowProc hwnd uMsg wParam lParam] }

/-- Helper `RegisterWindowClass`; `registerOk` is the result of `RegisterClassA`. -/
def RegisterWindowClass (s : State) (registerOk : Bool) : State :=
  if s.g_classRegistered then s
  else if registerOk then { s with g_classRegistered := true }
  else s

/-- Function `jp_create_window`; `hwnd` is the result of `CreateWindowExA`. -/
def jp_create_window (s : State) (title : String) (width height : Int)
    (registerOk : Bool) (hwnd : WindowHandle) : WindowHandle × State :=
  let s1 := RegisterWindowClass s registerOk
  if hwnd = 0 then
    (0, { s1 with calls := s1.calls ++ [NativeCall.cerr "Failed to create window. Error: "] })
  else
    let data : WindowData :=
      { handle := hwnd, shouldClose := false, title := title,
        width := width, height := height, display := 0 }
    (hwnd, { s1 with g_windows := s1.g_windows.insert hwnd data })

/-- Function `jp_show_window`. -/
def jp_show_window (s : State) (window : WindowHandle) : State :=
  if window ≠ 0 then
    { s with calls := s.calls ++ [NativeCall.ShowWindow window, NativeCall.UpdateWindow window] }
  else s

/-- First posted message of `window` in the queue, taken out of it. -/
def peekQueue : List MSG → WindowHandle → Option (MSG × List MSG)
  | [], _ => none
  | m :: q, window =>
    if m.hwnd = window then some (m, q)
    else
      match peekQueue q window with
      | none => none
      | some (msg, rest) => some (msg, m :: rest)

/-- The quit message that the native retrieval makes from the quit flag of the thread.
It is a thread message: its window is null. -/
def quitMessage : MSG := ⟨0, WM_QUIT, 0, 0⟩

/-- Native `PeekMessageA(&msg, window, 0, 0, PM_REMOVE)`: the first posted message of
`window`, removed from the queue; when there is none and the quit flag is set, the quit
message, provided the native layer lets it through the window filter (the flag is then
cleared). -/
def PeekMessageA (s : State) (window : WindowHandle) : Option (MSG × State) :=
  match peekQueue s.queue window with
  | some (msg, rest) => some (msg, { s with queue := rest })
  | none =>
    if s.quitThroughFilter = true ∧ s.quitPosted = true then
      some (quitMessage, { s with quitPosted := false })
    else none

/-- Native `DispatchMessageA`: enters the window procedure of the window of the message,
which is `WindowProc` for every window of this process; a thread message (null window)
has no window procedure. -/
def DispatchMessageA (s : State) (msg : MSG) : State :=
  if msg.hwnd = 0 then s
  else WindowProc s msg.hwnd msg.message msg.wParam msg.lParam

/-- Body of the `while (PeekMessageA(...))` loop of `jp_poll_events`:
`TranslateMessage`, `DispatchMessageA` and the check for `WM_QUIT`. -/
def pollBody (s : State) (window : WindowHandle) (msg : MSG) : State :=
  let s1 := DispatchMessageA s msg
  if msg.message = WM_QUIT then { s1 with g_windows := s1.g_windows.close window } else s1

/-- The `while (PeekMessageA(...))` loop of `jp_poll_events`, with a bound on the number
of iterations. -/
def pollLoop : Nat → WindowHandle → State → State
  | 0, _, s => s
  | fuel + 1, window, s =>
    match PeekMessageA s window with
    | none => s
    | some (msg, s1) => pollLoop fuel window (pollBody s1 window msg)

/-- Function `jp_poll_events`.  Each posted message costs the loop at most two
iterations (itself and the quit message it may cause), so the bound is twice the length
of the queue plus one; `pollLoop_fuel` shows it to be enough. -/
def jp_poll_events (s : State) (window : WindowHandle) : Bool × State :=
  if window = 0 then (false, s)
  else
    match s.g_windows window with
    | none => (false, s)
    | some _ =>
      let s1 := pollLoop (2 * s.queue.length + 1) window s
      match s1.g_windows window with
      | some data => (!data.shouldClose, s1)
      | none => (false, s1)

/-- Function `jp_destroy_window`. -/
def jp_destroy_window (s : State) (window : WindowHandle) : State :=
  if window = 0 then s
  else
    let r := match s.g_windows window with
      | some _ => s.g_windows.erase window
      | none => s.g_windows
    { s with g_windows := r, calls := s.calls ++ [NativeCall.DestroyWindow window] }

/-- Function `jp_set_window_title`. -/
def jp_set_window_title (s : State) (window : WindowHandle) (title : String) : State :=
  if window ≠ 0 then
    let s1 := { s with calls := s.calls ++ [NativeCall.SetWindowTextA window title] }
    match s1.g_windows window with
    | some d => { s1 with g_windows := s1.g_windows.insert window { d with title := title } }
    | none => s1
  else s

/-- One call of the interface, or one message entering the native queue. -/
inductive Op where
  | create (title : String) (width height : Int) (registerOk : Bool) (hwnd : WindowHandle)
  | showWindow (window : WindowHandle)
  | post (m : MSG)
  | poll (window : WindowHandle)
  | setTitle (window : WindowHandle) (title : String)
  | destroy (window : WindowHandle)

/-- Effect of one operation on the state. -/
def step (s : State) : Op → State
  | Op.create title width height registerOk hwnd =>
      (jp_create_window s title width height registerOk hwnd).2
  | Op.showWindow window => jp_show_window s window
  | Op.post m => { s with queue := s.queue ++ [m] }
  | Op.poll window => (jp_poll_events s window).2
  | Op.setTitle window title => jp_set_window_title s window title
  | Op.destroy window => jp_destroy_window s window

/-- Effect of a sequence of operations. -/
def run (s : State) (ops : List Op) : State := ops.foldl step s

/-- Posted messages of the queue that are addressed to `window`. -/
def queued (q : List MSG) (window : WindowHandle) : List MSG :=
  q.filter (fun m => decide (m.hwnd = window))

/-- Messages pending for `window`: what the retrieval for `window` can hand over in the
state `s`, that is the posted messages of `window` and, where the native layer lets it
through the filter, the quit message of a set quit flag. -/
def pending (s : State) (window : WindowHandle) : List MSG :=
  queued s.queue window ++
    (if s.quitThroughFilter && s.quitPosted then [quitMessage] else [])

/-- Messages on which the code sets `shouldClose`: `WM_CLOSE` in `WindowProc` and
`WM_QUIT` in the loop of `jp_poll_events`. -/
def closeSignal (m : MSG) : Bool :=
  decide (m.message = WM_CLOSE) || decide (m.message = WM_QUIT)

/-- Messages listed as close or destroy signals of the Win32 branch in the
specification: `WM_CLOSE`, `WM_DESTROY` and `WM_QUIT`. -/
def specSignal (m : MSG) : Bool :=
  decide (m.message = WM_CLOSE) || decide (m.message = WM_DESTROY) ||
    decide (m.message = WM_QUIT)

/-- Size messages. -/
def sizeMsg (m : MSG) : Bool := decide (m.message = WM_SIZE)

/-- Destroy notifications. -/
def destroyMsg (m : MSG) : Bool := decide (m.message = WM_DESTROY)

/-- Net effect of one loop iteration of `jp_poll_events` on the record of the polled
window. -/
def applyMsg (d : WindowData) (m : MSG) : WindowData :=
  if m.message = WM_CLOSE then { d with shouldClose := true }
  else if m.message = WM_SIZE then
    { d with width := (LOWORD m.lParam : Nat), height := (HIWORD m.lParam : Nat) }
  else if m.message = WM_QUIT then { d with shouldClose := true }
  else d

/-- Record of the polled window after the loop of `jp_poll_events` has drained the
posted messages `ms` of the window, on a native layer `qf` and with the quit flag `quit`
at entry: the messages are applied in order, and where the quit message comes through
the filter, a quit flag set at entry or by a `WM_DESTROY` among `ms` closes the window. -/
def drained (qf quit : Bool) (ms : List MSG) (d : WindowData) : WindowData :=
  if qf && (quit || ms.any destroyMsg) then { ms.foldl applyMsg d with shouldClose := true }
  else ms.foldl applyMsg d

/-- Registry invariant of the Win32 build: the null handle is never registered and each
record carries its own key. -/
def Inv (s : State) : Prop :=
  ∀ k d, s.g_windows k = some d → k ≠ 0 ∧ d.handle = k

/-- Operations that leave the window `h` alive: every operation except destroying `h`
and a creation that hands out `h` again. -/
def Op.keeps (h : WindowHandle) : Op → Bool
  | Op.create _ _ _ _ hwnd => decide (hwnd ≠ h)
  | Op.destroy window => decide (window ≠ h)
  | _ => true

/-- Operations that leave the window `h` alive and do not set its title. -/
def Op.keepsTitle (h : WindowHandle) : Op → Bool
  | Op.create _ _ _ _ hwnd => decide (hwnd ≠ h)
  | Op.destroy window => decide (window ≠ h)
  | Op.setTitle window _ => decide (window ≠ h)
  | _ => true

/-- Scenario of the specification: `create(title = "T", 800x600)` handing out the
handle `1`, followed by `show`, on a native layer with the given `quitThroughFilter`. -/
def created (quitThroughFilter : Bool) : State :=
  run (init quitThroughFilter) [Op.create "T" 800 600 true 1, Op.showWindow 1]

end Win32

/-! ## Linux (X11) branch -/

namespace X11

/-- Event type numbers of `X11/X.h`. -/
def Expose : Nat := 12
def DestroyNotify : Nat := 17
def ConfigureNotify : Nat := 22
def ClientMessage : Nat := 33

/-- Native `XEvent`: its type, the window it is reported for and, for a size change, the
extents it carries. -/
structure XEvent where
  type : Nat
  window : WindowHandle
  width : Int
  height : Int
  deriving DecidableEq

/-- Process state of the Linux build; `g_display = 0` is the null display pointer. -/
structure State where
  g_windows : Registry
  g_display : Nat
  g_screen : Int
  queue : List XEvent
  calls : List NativeCall

/-- State at process start. -/
def init : State :=
  { g_windows := Registry.none, g_display := 0, g_screen := 0, queue := [], calls := [] }

/-- Function `jp_create_window`; `dpy` is the result of `XOpenDisplay`, `screen` that of
`DefaultScreen` and `window` that of `XCreateSimpleWindow`. -/
def jp_create_window (s : State) (title : String) (width height : Int)
    (dpy : Nat) (screen : Int) (window : WindowHandle) : WindowHandle × State :=
  if s.g_display = 0 ∧ dpy = 0 then
    (0, { s with calls := s.calls ++ [NativeCall.cerr "Cannot open X display"] })
  else
    let s1 := if s.g_display = 0 then { s with g_display := dpy, g_screen := screen } else s
    if window = 0 then
      (0, { s1 with calls := s1.calls ++ [NativeCall.cerr "Failed to create X11 window"] })
    else
      let data : WindowData :=
        { handle := window, shouldClose := false, title := title,
          width := width, height := height, display := s1.g_display }
      (window, { s1 with
        g_windows := s1.g_windows.insert window data,
        calls := s1.calls ++ [NativeCall.XStoreName window title,
          NativeCall.XSelectInput window, NativeCall.XSetWMProtocols window] })

/-- Function `jp_show_window`. -/
def jp_show_window (s : State) (window : WindowHandle) : State :=
  if window ≠ 0 ∧ s.g_display ≠ 0 then
    { s with calls := s.calls ++ [NativeCall.XMapWindow window, NativeCall.XFlush] }
  else s

/-- Table `_Xevent_to_mask` of Xlib, reduced to whether the entry of an event type is
non-zero: the types `KeyPress` (2) to `PropertyNotify` (28) and `ColormapNotify` (32)
have an event mask; `SelectionClear`, `SelectionRequest`, `SelectionNotify` (29 to 31),
`ClientMessage` (33), `MappingNotify` (34) and everything else have none. -/
def maskable (type : Nat) : Bool :=
  (decide (2 ≤ type) && decide (type ≤ 28)) || decide (type = 32)

/-- Native `XCheckWindowEvent(g_display, window, -1, &event)`: the first queued event of
`window` whose type has an event mask (with the mask `-1` every non-zero table entry
matches), removed from the queue.  Events without event mask are never handed over. -/
def XCheckWindowEvent : List XEvent → WindowHandle → Option (XEvent × List XEvent)
  | [], _ => none
  | e :: q, window =>
    if e.window = window ∧ maskable e.type = true then some (e, q)
    else
      match XCheckWindowEvent q window with
      | none => none
      | some (event, rest) => some (event, e :: rest)

/-- Body of the `while (XCheckWindowEvent(...))` loop of `jp_poll_events`: the `switch`
on the event type. -/
def pollBody (s : State) (window : WindowHandle) (event : XEvent) : State :=
  if event.type = DestroyNotify then { s with g_windows := s.g_windows.close window }
  else if event.type = ClientMessage then { s with g_windows := s.g_windows.close window }
  else if event.type = Expose then s
  else s

/-- The `while (XCheckWindowEvent(...))` loop of `jp_poll_events`, with a bound on the
number of iterations. -/
def pollLoop : Nat → WindowHandle → State → State
  | 0, _, s => s
  | fuel + 1, window, s =>
    match XCheckWindowEvent s.queue window with
    | none => s
    | some (event, rest) =>
      pollLoop fuel window (pollBody { s with queue := rest } window event)

/-- Function `jp_poll_events`.  The loop runs with as many iterations as the queue is
long, which `x11_pollLoop_fuel` shows to be enough. -/
def jp_poll_events (s : State) (window : WindowHandle) : Bool × State :=
  if window = 0 ∨ s.g_display = 0 then (false, s)
  else
    match s.g_windows window with
    | none => (false, s)
    | some _ =>
      let s1 := pollLoop s.queue.length window s
      match s1.g_windows window with
      | some data => (!data.shouldClose, s1)
      | none => (false, s1)

/-- Function `jp_destroy_window`. -/
def jp_destroy_window (s : State) (window : WindowHandle) : State :=
  if window = 0 ∨ s.g_display = 0 then s
  else
    let r := match s.g_windows window with
      | some _ => s.g_windows.erase window
      | none => s.g_windows
    { s with g_windows := r,
             calls := s.calls ++ [NativeCall.XDestroyWindow window, NativeCall.XFlush] }

/-- Function `jp_set_window_title`. -/
def jp_set_window_title (s : State) (window : WindowHandle) (title : String) : State :=
  if window ≠ 0 ∧ s.g_display ≠ 0 then
    let s1 := { s with calls := s.calls ++ [NativeCall.XStoreName window title,
      NativeCall.XFlush] }
    match s1.g_windows window with
    | some d => { s1 with g_windows := s1.g_windows.insert window { d with title := title } }
    | none => s1
  else s

/-- One call of the interface, or one event entering the native queue. -/
inductive Op where
  | create (title : String) (width height : Int) (dpy : Nat) (screen : Int)
      (window : WindowHandle)
  | showWindow (window : WindowHandle)
  | post (e : XEvent)
  | poll (window : WindowHandle)
  | setTitle (window : WindowHandle) (title : String)
  | destroy (window : WindowHandle)

/-- Effect of one operation on the state. -/
def step (s : State) : Op → State
  | Op.create title width height dpy screen window =>
      (jp_create_window s title width height dpy screen window).2
  | Op.showWindow window => jp_show_window s window
  | Op.post e => { s with queue := s.queue ++ [e] }
  | Op.poll window => (jp_poll_events s window).2
  | Op.setTitle window title => jp_set_window_title s window title
  | Op.destroy window => jp_destroy_window s window

/-- Effect of a sequence of operations. -/
def run (s : State) (ops : List Op) : State := ops.foldl step s

/-- Events of the queue that a retrieval for `window` returns. -/
def pending (q : List XEvent) (window : WindowHandle) : List XEvent :=
  q.filter (fun e => decide (e.window = window ∧ maskable e.type = true))

/-- Events of the queue that are addressed to `window`, retrievable or not. -/
def addressed (q : List XEvent) (window : WindowHandle) : List XEvent :=
  q.filter (fun e => decide (e.window = window))

/-- Events for which the `switch` sets `shouldClose`: `DestroyNotify` and
`ClientMessage`.  These are also the close and destroy signals of the specification. -/
def closeSignal (e : XEvent) : Bool :=
  decide (e.type = DestroyNotify) || decide (e.type = ClientMessage)

/-- Size events. -/
def sizeEvent (e : XEvent) : Bool := decide (e.type = ConfigureNotify)

/-- Net effect of one loop iteration of `jp_poll_events` on the record of the polled
window. -/
def applyEvent (d : WindowData) (e : XEvent) : WindowData :=
  if closeSignal e then { d with shouldClose := true } else d

/-- Registry invariant of the Linux build: the null handle is never registered, each
record carries its own key, and a window exists only while the display is open. -/
def Inv (s : State) : Prop :=
  ∀ k d, s.g_windows k = some d → k ≠ 0 ∧ d.handle = k ∧ s.g_display ≠ 0

/-- Operations that leave the window `h` alive: every operation except destroying `h`
and a creation that hands out `h` again. -/
def Op.keeps (h : WindowHandle) : Op → Bool
  | Op.create _ _ _ _ _ window => decide (window ≠ h)
  | Op.destroy window => decide (window ≠ h)
  | _ => true

/-- Operations that leave the window `h` alive and do not set its title. -/
def Op.keepsTitle (h : WindowHandle) : Op → Bool
  | Op.create _ _ _ _ _ window => decide (window ≠ h)
  | Op.destroy window => decide (window ≠ h)
  | Op.setTitle window _ => decide (window ≠ h)
  | _ => true

/-- Scenario of the specification: `create(title = "T", 800x600)` on the display `9`
handing out the window `1`, followed by `show`. -/
def created : State := run init [Op.create "T" 800 600 9 0 1, Op.showWindow 1]

end X11

/-! ## Registry lemmas -/

theorem Registry.insert_same (r : Registry) (k : WindowHandle) (d : WindowData) :
    r.insert k d k = some d := by
  simp [Registry.insert]

theorem Registry.insert_other (r : Registry) {k x : WindowHandle} (d : WindowData)
    (h : x ≠ k) : r.insert k d x = r x := by
  simp [Registry.insert, h]

theorem Registry.erase_same (r : Registry) (k : WindowHandle) : r.erase k k = Option.none := by
  simp [Registry.erase]

theorem Registry.erase_other (r : Registry) {k x : WindowHandle} (h : x ≠ k) :
    r.erase k x = r x := by
  simp [Registry.erase, h]

theorem Registry.close_same (r : Registry) {k : WindowHandle} {d : WindowData}
    (h : r k = some d) : r.close k k = some { d with shouldClose := true } := by
  simp [Registry.close, h, Registry.insert]

theorem Registry.close_other (r : Registry) {k x : WindowHandle} (h : x ≠ k) :
    r.close k x = r x := by
  unfold Registry.close
  cases r k <;> simp [Registry.insert, h]

/-! ## Win32: the polling loop -/

namespace Win32

theorem peekQueue_none (q : List MSG) (w : WindowHandle) :
    peekQueue q w = none ↔ queued q w = [] := by
  induction q with
  | nil => simp [peekQueue, queued]
  | cons m q ih =>
    by_cases hm : m.hwnd = w
    · simp [peekQueue, queued, hm]
    · have ih2 : peekQueue q w = none ↔ List.filter (fun m => decide (m.hwnd = w)) q = [] := ih
      cases hq : peekQueue q w with
      | none => simpa [peekQueue, queued, hm, hq] using ih2.mp hq
      | some p =>
        have : ¬ List.filter (fun m => decide (m.hwnd = w)) q = [] := by
          intro h
          rw [ih2.mpr h] at hq
          cases hq
        simpa [peekQueue, queued, hm, hq] using this

theorem peekQueue_some {q : List MSG} {w : WindowHandle} {m : MSG} {rest : List MSG}
    (h : peekQueue q w = some (m, rest)) :
    m.hwnd = w ∧ queued q w = m :: queued rest w ∧ rest.length + 1 = q.length ∧
      ∀ k, k ≠ w → queued rest k = queued q k := by
  induction q generalizing m rest with
  | nil => simp [peekQueue] at h
  | cons a q ih =>
    by_cases ha : a.hwnd = w
    · simp [peekQueue, ha] at h
      obtain ⟨rfl, rfl⟩ := h
      refine ⟨ha, by simp [queued, ha], rfl, ?_⟩
      intro k hk
      have : ¬ a.hwnd = k := by rw [ha]; exact fun e => hk e.symm
      simp [queued, this]
    · cases hq : peekQueue q w with
      | none => simp [peekQueue, ha, hq] at h
      | some p =>
        obtain ⟨m1, rest1⟩ := p
        simp [peekQueue, ha, hq] at h
        obtain ⟨rfl, rfl⟩ := h
        obtain ⟨h1, h2, h3, h4⟩ := ih hq
        refine ⟨h1, ?_, by simp [h3], ?_⟩
        · have h2' : List.filter (fun m => decide (m.hwnd = w)) q =
              m1 :: List.filter (fun m => decide (m.hwnd = w)) rest1 := h2
          simp [queued, ha, h2']
        · intro k hk
          have h4' : List.filter (fun m => decide (m.hwnd = k)) rest1 =
              List.filter (fun m => decide (m.hwnd = k)) q := h4 k hk
          by_cases hak : a.hwnd = k <;> simp [queued, hak, h4']

/-- The retrieval finds nothing exactly when nothing is pending. -/
theorem PeekMessageA_none (s : State) (w : WindowHandle) :
    PeekMessageA s w = none ↔ pending s w = [] := by
  unfold PeekMessageA pending
  cases hp : peekQueue s.queue w with
  | none =>
    have hq := (peekQueue_none s.queue w).mp hp
    cases s.quitThroughFilter <;> cases s.quitPosted <;> simp [hq]
  | some p =>
    have hq : queued s.queue w ≠ [] := fun e => by
      rw [(peekQueue_none s.queue w).mpr e] at hp
      cases hp
    simp [hq]

theorem WindowProc_frame (s : State) (hwnd : WindowHandle) (u wp lp : Nat) :
    (WindowProc s hwnd u wp lp).queue = s.queue ∧
      (WindowProc s hwnd u wp lp).g_classRegistered = s.g_classRegistered ∧
      (WindowProc s hwnd u wp lp).quitThroughFilter = s.quitThroughFilter := by
  unfold WindowProc
  cases s.g_windows hwnd with
  | none => exact ⟨rfl, rfl, rfl⟩
  | some d => simp only []; split_ifs <;> exact ⟨rfl, rfl, rfl⟩

theorem WindowProc_other (s : State) {hwnd k : WindowHandle} (u wp lp : Nat) (hk : k ≠ hwnd) :
    (WindowProc s hwnd u wp lp).g_windows k = s.g_windows k := by
  unfold WindowProc
  cases s.g_windows hwnd with
  | none => rfl
  | some d => simp only []; split_ifs <;> simp [Registry.insert, hk]

theorem pollBody_frame (s : State) (w : WindowHandle) (m : MSG) :
    (pollBody s w m).queue = s.queue ∧
      (pollBody s w m).g_classRegistered = s.g_classRegistered ∧
      (pollBody s w m).quitThroughFilter = s.quitThroughFilter := by
  unfold pollBody DispatchMessageA
  simp only []
  split_ifs <;> simp [WindowProc_frame]

theorem pollBody_other (s : State) {w k : WindowHandle} {m : MSG}
    (hm : m.hwnd = 0 ∨ m.hwnd = w) (hk : k ≠ w) :
    (pollBody s w m).g_windows k = s.g_windows k := by
  have hd : (DispatchMessageA s m).g_windows k = s.g_windows k := by
    unfold DispatchMessageA
    split_ifs with h0
    · rfl
    · have e : m.hwnd = w := hm.resolve_left h0
      rw [e]
      exact WindowProc_other s _ _ _ hk
  unfold pollBody
  simp only []
  split_ifs
  · simp [Registry.close_other _ hk, hd]
  · exact hd

theorem pollBody_same (s : State) {w : WindowHandle} {m : MSG} {d : WindowData}
    (hm : m.hwnd = w) (h0 : w ≠ 0) (hd : s.g_windows w = some d) :
    (pollBody s w m).g_windows w = some (applyMsg d m) ∧
      (pollBody s w m).quitPosted = (s.quitPosted || destroyMsg m) := by
  unfold pollBody DispatchMessageA WindowProc applyMsg destroyMsg
  rw [hm, hd]
  by_cases h1 : m.message = WM_CLOSE
  · simp [h1, h0, Registry.insert, WM_CLOSE, WM_QUIT, WM_DESTROY]
  · by_cases h2 : m.message = WM_DESTROY
    · simp [h2, h0, hd, WM_CLOSE, WM_QUIT, WM_DESTROY, WM_SIZE]
    · by_cases h3 : m.message = WM_SIZE
      · simp [h3, h0, Registry.insert, WM_CLOSE, WM_QUIT, WM_DESTROY, WM_SIZE]
      · by_cases h4 : m.message = WM_PAINT
        · simp [h4, h0, hd, WM_CLOSE, WM_QUIT, WM_DESTROY, WM_SIZE, WM_PAINT]
        · by_cases h5 : m.message = WM_QUIT
          · simp [h5, h0, Registry.close, hd, Registry.insert, WM_CLOSE, WM_QUIT, WM_DESTROY,
              WM_SIZE, WM_PAINT]
          · simp [h1, h2, h3, h4, h5, h0, hd]

theorem pollBody_quitMessage (s : State) (w : WindowHandle) :
    pollBody s w quitMessage = { s with g_windows := s.g_windows.close w } := by
  simp [pollBody, DispatchMessageA, quitMessage]

/-- A loop that finds nothing to retrieve returns at once. -/
theorem pollLoop_idle (n : Nat) (w : WindowHandle) (s : State)
    (hp : PeekMessageA s w = none) : pollLoop n w s = s := by
  cases n <;> simp [pollLoop, hp]

theorem drained_cons (qf quit : Bool) (m : MSG) (ms : List MSG) (d : WindowData) :
    drained qf (quit || destroyMsg m) ms (applyMsg d m) = drained qf quit (m :: ms) d := by
  simp [drained, Bool.or_assoc]

/-- The loop with enough iterations: the record of the polled window is the drained
one, every other record is kept, exactly the posted messages of the polled window leave
the queue, and the loop returns through its exit test. -/
theorem pollLoop_spec (w : WindowHandle) (h0 : w ≠ 0) (n : Nat) (s : State) (d : WindowData)
    (hd : s.g_windows w = some d) (hn : 2 * (queued s.queue w).length + 1 ≤ n) :
    (pollLoop n w s).g_windows w =
        some (drained s.quitThroughFilter s.quitPosted (queued s.queue w) d) ∧
    (∀ k, k ≠ w → (pollLoop n w s).g_windows k = s.g_windows k) ∧
    queued (pollLoop n w s).queue w = [] ∧
    (∀ k, k ≠ w → queued (pollLoop n w s).queue k = queued s.queue k) ∧
    (pollLoop n w s).quitThroughFilter = s.quitThroughFilter ∧
    PeekMessageA (pollLoop n w s) w = none := by
  induction n generalizing s d with
  | zero => omega
  | succ n ih =>
    cases hp : peekQueue s.queue w with
    | none =>
      have hnil := (peekQueue_none s.queue w).mp hp
      by_cases hq : s.quitThroughFilter = true ∧ s.quitPosted = true
      · have hpeek : PeekMessageA s w = some (quitMessage, { s with quitPosted := false }) := by
          simp [PeekMessageA, hp, hq]
        have hidle : PeekMessageA
            (pollBody { s with quitPosted := false } w quitMessage) w = none := by
          rw [pollBody_quitMessage]
          simp [PeekMessageA, hp]
        have hrun : pollLoop (n + 1) w s =
            pollBody { s with quitPosted := false } w quitMessage := by
          simp only [pollLoop, hpeek]
          exact pollLoop_idle n w _ hidle
        rw [hrun]
        refine ⟨?_, ?_, ?_, ?_, ?_, hidle⟩
        · rw [pollBody_quitMessage]
          simp [Registry.close, hd, Registry.insert, drained, hq.1, hq.2, hnil]
        · intro k hk
          exact pollBody_other _ (Or.inl rfl) hk
        · rw [(pollBody_frame _ _ _).1]
          exact hnil
        · intro k _
          rw [(pollBody_frame _ _ _).1]
        · rw [(pollBody_frame _ _ _).2.2]
      · have hpeek : PeekMessageA s w = none := by
          simp [PeekMessageA, hp, hq]
        have hrun : pollLoop (n + 1) w s = s := pollLoop_idle _ w s hpeek
        rw [hrun]
        refine ⟨?_, fun _ _ => rfl, hnil, fun _ _ => rfl, rfl, hpeek⟩
        have hc : (s.quitThroughFilter && s.quitPosted) = false := by
          cases hA : s.quitThroughFilter <;> cases hB : s.quitPosted <;> simp_all
        simp [drained, hnil, hd, hc]
    | some p =>
      obtain ⟨m, rest⟩ := p
      obtain ⟨hm, hpend, hlen, hoth⟩ := peekQueue_some hp
      have hpeek : PeekMessageA s w = some (m, { s with queue := rest }) := by
        simp [PeekMessageA, hp]
      have hb := pollBody_same (s := { s with queue := rest }) hm h0 hd
      have hf := pollBody_frame { s with queue := rest } w m
      have hn2 : 2 * (queued (pollBody { s with queue := rest } w m).queue w).length + 1
          ≤ n := by
        rw [hf.1]
        show 2 * (queued rest w).length + 1 ≤ n
        rw [hpend] at hn
        simp only [List.length_cons] at hn
        omega
      obtain ⟨i1, i2, i3, i4, i5, i6⟩ := ih _ _ hb.1 hn2
      have hrun : pollLoop (n + 1) w s =
          pollLoop n w (pollBody { s with queue := rest } w m) := by
        simp only [pollLoop, hpeek]
      rw [hrun]
      refine ⟨?_, ?_, i3, ?_, ?_, i6⟩
      · rw [i1, hf.1, hf.2.2, hb.2, hpend]
        exact congrArg some (drained_cons _ _ _ _ _)
      · intro k hk
        rw [i2 k hk]
        exact pollBody_other _ (Or.inr hm) hk
      · intro k hk
        rw [i4 k hk, hf.1]
        exact hoth k hk
      · rw [i5, hf.2.2]

/-- The bound used by `jp_poll_events` is enough, whether or not the window is
registered: the loop returns through its exit test (nothing is left to retrieve), and
more iterations change nothing. -/
theorem pollLoop_fuel (w : WindowHandle) (n : Nat) (s : State)
    (hn : 2 * s.queue.length + 1 ≤ n) :
    PeekMessageA (pollLoop n w s) w = none ∧ pollLoop (n + 1) w s = pollLoop n w s := by
  induction n generalizing s with
  | zero => omega
  | succ n ih =>
    cases hp : peekQueue s.queue w with
    | none =>
      by_cases hq : s.quitThroughFilter = true ∧ s.quitPosted = true
      · have hpeek : PeekMessageA s w = some (quitMessage, { s with quitPosted := false }) := by
          simp [PeekMessageA, hp, hq]
        have hidle : PeekMessageA
            (pollBody { s with quitPosted := false } w quitMessage) w = none := by
          rw [pollBody_quitMessage]
          simp [PeekMessageA, hp]
        have e1 : pollLoop (n + 1) w s =
            pollBody { s with quitPosted := false } w quitMessage := by
          simp only [pollLoop, hpeek]
          exact pollLoop_idle n w _ hidle
        have e2 : pollLoop (n + 1 + 1) w s =
            pollBody { s with quitPosted := false } w quitMessage := by
          simp only [pollLoop, hpeek]
          exact pollLoop_idle (n + 1) w _ hidle
        rw [e1, e2]
        exact ⟨hidle, rfl⟩
      · have hpeek : PeekMessageA s w = none := by
          simp [PeekMessageA, hp, hq]
        rw [pollLoop_idle _ w s hpeek, pollLoop_idle _ w s hpeek]
        exact ⟨hpeek, rfl⟩
    | some p =>
      obtain ⟨m, rest⟩ := p
      obtain ⟨_, _, hlen, _⟩ := peekQueue_some hp
      have hpeek : PeekMessageA s w = some (m, { s with queue := rest }) := by
        simp [PeekMessageA, hp]
      have hn2 : 2 * (pollBody { s with queue := rest } w m).queue.length + 1 ≤ n := by
        rw [(pollBody_frame _ _ _).1]
        show 2 * rest.length + 1 ≤ n
        omega
      obtain ⟨i1, i2⟩ := ih _ hn2
      have e1 : pollLoop (n + 1 + 1) w s =
          pollLoop (n + 1) w (pollBody { s with queue := rest } w m) := by
        simp only [pollLoop, hpeek]
      have e2 : pollLoop (n + 1) w s =
          pollLoop n w (pollBody { s with queue := rest } w m) := by
        simp only [pollLoop, hpeek]
      rw [e1, e2]
      exact ⟨i1, i2⟩

theorem foldl_applyMsg_handle (ms : List MSG) (d : WindowData) :
    (ms.foldl applyMsg d).handle = d.handle ∧ (ms.foldl applyMsg d).title = d.title ∧
      (ms.foldl applyMsg d).display = d.display := by
  induction ms generalizing d with
  | nil => simp
  | cons m ms ih =>
    obtain ⟨h1, h2, h3⟩ := ih (applyMsg d m)
    simp only [List.foldl_cons]
    rw [h1, h2, h3]
    unfold applyMsg
    split_ifs <;> simp

theorem drained_frame (qf quit : Bool) (ms : List MSG) (d : WindowData) :
    (drained qf quit ms d).handle = d.handle ∧ (drained qf quit ms d).title = d.title ∧
      (drained qf quit ms d).display = d.display := by
  obtain ⟨h1, h2, h3⟩ := foldl_applyMsg_handle ms d
  unfold drained
  split_ifs <;> exact ⟨h1, h2, h3⟩

theorem foldl_applyMsg_shouldClose (ms : List MSG) (d : WindowData) :
    (ms.foldl applyMsg d).shouldClose = (d.shouldClose || ms.any closeSignal) := by
  induction ms generalizing d with
  | nil => simp
  | cons m ms ih =>
    simp only [List.foldl_cons, List.any_cons]
    rw [ih]
    unfold applyMsg closeSignal
    by_cases h1 : m.message = WM_CLOSE
    · simp [h1]
    · by_cases h2 : m.message = WM_SIZE
      · simp [h2, WM_SIZE, WM_CLOSE, WM_QUIT]
      · by_cases h3 : m.message = WM_QUIT
        · simp [h3, WM_SIZE, WM_CLOSE, WM_QUIT]
        · simp [h1, h2, h3]

/-- When the drained record is closed: it was closed before, or a `WM_CLOSE` or `WM_QUIT`
was among the messages, or the quit message of the thread came through the filter. -/
theorem drained_shouldClose (qf quit : Bool) (ms : List MSG) (d : WindowData) :
    (drained qf quit ms d).shouldClose =
      (d.shouldClose || ms.any closeSignal || (qf && (quit || ms.any destroyMsg))) := by
  unfold drained
  split_ifs with h
  · simp [h]
  · rw [foldl_applyMsg_shouldClose]
    simp only [Bool.not_eq_true] at h
    rw [h]
    simp

theorem foldl_applyMsg_last_size (ms : List MSG) (d : WindowData) (m : MSG)
    (h : (ms.filter sizeMsg).getLast? = some m) :
    (ms.foldl applyMsg d).width = (LOWORD m.lParam : Nat) ∧
      (ms.foldl applyMsg d).height = (HIWORD m.lParam : Nat) := by
  induction ms using List.reverseRecOn generalizing d with
  | nil => simp at h
  | append_singleton ms a ih =>
    rw [List.foldl_append]
    simp only [List.foldl_cons, List.foldl_nil]
    by_cases ha : a.message = WM_SIZE
    · have hs : sizeMsg a = true := by simp [sizeMsg, ha]
      have hf : (ms ++ [a]).filter sizeMsg = ms.filter sizeMsg ++ [a] := by
        rw [List.filter_append, List.filter_cons_of_pos hs, List.filter_nil]
      rw [hf, List.getLast?_concat] at h
      cases h
      simp [applyMsg, ha, WM_SIZE, WM_CLOSE]
    · have hs : ¬ sizeMsg a = true := by simp [sizeMsg, ha]
      have hf : (ms ++ [a]).filter sizeMsg = ms.filter sizeMsg := by
        rw [List.filter_append, List.filter_cons_of_neg hs, List.filter_nil, List.append_nil]
      rw [hf] at h
      obtain ⟨h1, h2⟩ := ih d h
      revert h1 h2
      generalize List.foldl applyMsg d ms = d1
      intro h1 h2
      unfold applyMsg
      split_ifs <;> simp [h1, h2]

theorem drained_last_size (qf quit : Bool) (ms : List MSG) (d : WindowData) (m : MSG)
    (h : (ms.filter sizeMsg).getLast? = some m) :
    (drained qf quit ms d).width = (LOWORD m.lParam : Nat) ∧
      (drained qf quit ms d).height = (HIWORD m.lParam : Nat) := by
  obtain ⟨h1, h2⟩ := foldl_applyMsg_last_size ms d m h
  unfold drained
  split_ifs <;> exact ⟨h1, h2⟩

/-- Function `jp_poll_events` on a registered, non-null handle. -/
theorem jp_poll_events_registered (s : State) (h : WindowHandle) (d : WindowData)
    (h0 : h ≠ 0) (hd : s.g_windows h = some d) :
    (jp_poll_events s h).1 =
      !(drained s.quitThroughFilter s.quitPosted (queued s.queue h) d).shouldClose ∧
    (jp_poll_events s h).2.g_windows h =
      some (drained s.quitThroughFilter s.quitPosted (queued s.queue h) d) ∧
    (∀ k, k ≠ h → (jp_poll_events s h).2.g_windows k = s.g_windows k) ∧
    queued (jp_poll_events s h).2.queue h = [] ∧
    (∀ k, k ≠ h → queued (jp_poll_events s h).2.queue k = queued s.queue k) ∧
    PeekMessageA (jp_poll_events s h).2 h = none := by
  have hn : 2 * (queued s.queue h).length + 1 ≤ 2 * s.queue.length + 1 := by
    have := List.length_filter_le (fun m : MSG => decide (m.hwnd = h)) s.queue
    unfold queued
    omega
  obtain ⟨i1, i2, i3, i4, _, i6⟩ := pollLoop_spec h h0 _ s d hd hn
  have e : jp_poll_events s h =
      (!(drained s.quitThroughFilter s.quitPosted (queued s.queue h) d).shouldClose,
        pollLoop (2 * s.queue.length + 1) h s) := by
    simp [jp_poll_events, h0, hd, i1]
  rw [e]
  exact ⟨rfl, i1, i2, i3, i4, i6⟩

/-- Function `jp_poll_events` on a handle without registry entry. -/
theorem jp_poll_events_absent (s : State) (h : WindowHandle) (hd : s.g_windows h = none) :
    jp_poll_events s h = (false, s) := by
  unfold jp_poll_events
  split_ifs
  · rfl
  · simp [hd]

/-! ## Win32: effect of each function on the registry -/

theorem jp_create_window_fail (s : State) (title : String) (width height : Int)
    (registerOk : Bool) :
    (jp_create_window s title width height registerOk 0).1 = 0 ∧
      (jp_create_window s title width height registerOk 0).2.g_windows = s.g_windows ∧
      (jp_create_window s title width height registerOk 0).2.queue = s.queue := by
  unfold jp_create_window RegisterWindowClass
  simp only [if_true]
  split_ifs <;> simp

theorem jp_create_window_ok (s : State) (title : String) (width height : Int)
    (registerOk : Bool) (hwnd : WindowHandle) (h0 : hwnd ≠ 0) :
    (jp_create_window s title width height registerOk hwnd).1 = hwnd ∧
      (jp_create_window s title width height registerOk hwnd).2.g_windows =
        s.g_windows.insert hwnd ⟨hwnd, false, title, width, height, 0⟩ ∧
      (jp_create_window s title width height registerOk hwnd).2.queue = s.queue := by
  unfold jp_create_window RegisterWindowClass
  split_ifs <;> simp [h0]

theorem jp_show_window_frame (s : State) (w : WindowHandle) :
    (jp_show_window s w).g_windows = s.g_windows ∧ (jp_show_window s w).queue = s.queue := by
  unfold jp_show_window
  split_ifs <;> exact ⟨rfl, rfl⟩

theorem jp_set_window_title_same (s : State) (w : WindowHandle) (t : String)
    (d : WindowData) (h0 : w ≠ 0) (hd : s.g_windows w = some d) :
    (jp_set_window_title s w t).g_windows w = some { d with title := t } := by
  simp [jp_set_window_title, h0, hd, Registry.insert]

theorem jp_set_window_title_other (s : State) (w k : WindowHandle) (t : String)
    (hk : k ≠ w) : (jp_set_window_title s w t).g_windows k = s.g_windows k := by
  unfold jp_set_window_title
  split_ifs
  · simp only []
    cases s.g_windows w <;> simp [Registry.insert, hk]
  · rfl

theorem jp_set_window_title_absent (s : State) (w : WindowHandle) (t : String)
    (hd : s.g_windows w = none) :
    (jp_set_window_title s w t).g_windows = s.g_windows := by
  unfold jp_set_window_title
  split_ifs
  · simp [hd]
  · rfl

theorem jp_set_window_title_queue (s : State) (w : WindowHandle) (t : String) :
    (jp_set_window_title s w t).queue = s.queue := by
  unfold jp_set_window_title
  split_ifs
  · simp only []
    cases s.g_windows w <;> rfl
  · rfl

theorem jp_destroy_window_same (s : State) (w : WindowHandle) (h0 : w ≠ 0) :
    (jp_destroy_window s w).g_windows w = none := by
  unfold jp_destroy_window
  simp only [h0, if_false]
  cases hd : s.g_windows w <;> simp [Registry.erase, hd]

theorem jp_destroy_window_other (s : State) (w k : WindowHandle) (hk : k ≠ w) :
    (jp_destroy_window s w).g_windows k = s.g_windows k := by
  unfold jp_destroy_window
  split_ifs
  · rfl
  · simp only []
    cases s.g_windows w <;> simp [Registry.erase, hk]

theorem jp_destroy_window_absent (s : State) (w : WindowHandle) (hd : s.g_windows w = none) :
    (jp_destroy_window s w).g_windows = s.g_windows := by
  unfold jp_destroy_window
  split_ifs
  · rfl
  · simp [hd]

theorem jp_destroy_window_queue (s : State) (w : WindowHandle) :
    (jp_destroy_window s w).queue = s.queue := by
  unfold jp_destroy_window
  split_ifs <;> rfl

/-- Function `jp_poll_events` never touches the record of another window. -/
theorem jp_poll_events_other (s : State) (w k : WindowHandle) (hk : k ≠ w) :
    (jp_poll_events s w).2.g_windows k = s.g_windows k := by
  by_cases h0 : w = 0
  · simp [jp_poll_events, h0]
  · cases hd : s.g_windows w with
    | none => rw [jp_poll_events_absent s w hd]
    | some d => exact (jp_poll_events_registered s w d h0 hd).2.2.1 k hk

/-! ## Win32: invariant -/

theorem init_inv (qf : Bool) : Inv (init qf) := by
  intro k d h
  simp [init, Registry.none] at h

theorem step_inv (s : State) (op : Op) (hI : Inv s) : Inv (step s op) := by
  intro k d hk
  cases op with
  | create title width height registerOk hwnd =>
    by_cases h0 : hwnd = 0
    · subst h0
      rw [step, (jp_create_window_fail s title width height registerOk).2.1] at hk
      exact hI k d hk
    · rw [step, (jp_create_window_ok s title width height registerOk hwnd h0).2.1] at hk
      by_cases e : k = hwnd
      · subst e
        rw [Registry.insert_same] at hk
        cases hk
        exact ⟨h0, rfl⟩
      · rw [Registry.insert_other _ _ e] at hk
        exact hI k d hk
  | showWindow w =>
    rw [step, (jp_show_window_frame s w).1] at hk
    exact hI k d hk
  | post m => exact hI k d hk
  | poll w =>
    by_cases e : k = w
    · subst e
      cases hd : s.g_windows k with
      | none =>
        rw [step, jp_poll_events_absent s k hd] at hk
        exact hI k d hk
      | some d0 =>
        have h0 := (hI k d0 hd).1
        rw [step, (jp_poll_events_registered s k d0 h0 hd).2.1] at hk
        cases hk
        exact ⟨h0, by rw [(drained_frame _ _ _ d0).1]; exact (hI k d0 hd).2⟩
    · rw [step, jp_poll_events_other s w k e] at hk
      exact hI k d hk
  | setTitle w t =>
    by_cases e : k = w
    · subst e
      cases hd : s.g_windows k with
      | none =>
        rw [step, jp_set_window_title_absent s k t hd] at hk
        exact hI k d hk
      | some d0 =>
        have h0 := (hI k d0 hd).1
        rw [step, jp_set_window_title_same s k t d0 h0 hd] at hk
        cases hk
        exact ⟨h0, (hI k d0 hd).2⟩
    · rw [step, jp_set_window_title_other s w k t e] at hk
      exact hI k d hk
  | destroy w =>
    by_cases e : k = w
    · subst e
      cases hd : s.g_windows k with
      | none =>
        rw [step, jp_destroy_window_absent s k hd] at hk
        exact hI k d hk
      | some d0 =>
        have h0 := (hI k d0 hd).1
        rw [step, jp_destroy_window_same s k h0] at hk
        cases hk
    · rw [step, jp_destroy_window_other s w k e] at hk
      exact hI k d hk

theorem run_inv (ops : List Op) (s : State) (hI : Inv s) : Inv (run s ops) := by
  induction ops generalizing s with
  | nil => exact hI
  | cons op ops ih => exact ih (step s op) (step_inv s op hI)

end Win32

/-! ## X11: the polling loop -/

namespace X11

theorem XCheckWindowEvent_none (q : List XEvent) (w : WindowHandle) :
    XCheckWindowEvent q w = none ↔ pending q w = [] := by
  induction q with
  | nil => simp [XCheckWindowEvent, pending]
  | cons e q ih =>
    by_cases he : e.window = w ∧ maskable e.type = true
    · simp [XCheckWindowEvent, pending, he]
    · have ih2 : XCheckWindowEvent q w = none ↔
          List.filter (fun e => decide (e.window = w ∧ maskable e.type = true)) q = [] := ih
      cases hq : XCheckWindowEvent q w with
      | none =>
        have h1 := ih2.mp hq
        simp only [XCheckWindowEvent, pending, he, if_false, hq]
        rw [List.filter_cons_of_neg (by simpa using he)]
        simpa using h1
      | some p =>
        have h1 : ¬ List.filter (fun e => decide (e.window = w ∧ maskable e.type = true)) q
            = [] := by
          intro h
          rw [ih2.mpr h] at hq
          cases hq
        simp only [XCheckWindowEvent, pending, he, if_false, hq]
        rw [List.filter_cons_of_neg (by simpa using he)]
        simpa using h1

theorem XCheckWindowEvent_some {q : List XEvent} {w : WindowHandle} {e : XEvent}
    {rest : List XEvent} (h : XCheckWindowEvent q w = some (e, rest)) :
    (e.window = w ∧ maskable e.type = true) ∧ pending q w = e :: pending rest w ∧
      rest.length + 1 = q.length ∧ ∀ k, k ≠ w → pending rest k = pending q k := by
  induction q generalizing e rest with
  | nil => simp [XCheckWindowEvent] at h
  | cons a q ih =>
    by_cases ha : a.window = w ∧ maskable a.type = true
    · simp only [XCheckWindowEvent, ha, and_self, if_true, Option.some.injEq,
        Prod.mk.injEq] at h
      obtain ⟨rfl, rfl⟩ := h
      refine ⟨ha, ?_, rfl, ?_⟩
      · unfold pending
        rw [List.filter_cons_of_pos (by simpa using ha)]
      · intro k hk
        have hn : ¬ (a.window = k ∧ maskable a.type = true) := by
          rw [ha.1]
          exact fun e => hk e.1.symm
        unfold pending
        rw [List.filter_cons_of_neg (by simpa using hn)]
    · cases hq : XCheckWindowEvent q w with
      | none => simp [XCheckWindowEvent, ha, hq] at h
      | some p =>
        obtain ⟨e1, rest1⟩ := p
        simp only [XCheckWindowEvent, ha, if_false, hq, Option.some.injEq,
          Prod.mk.injEq] at h
        obtain ⟨rfl, rfl⟩ := h
        obtain ⟨h1, h2, h3, h4⟩ := ih hq
        refine ⟨h1, ?_, by simp [h3], ?_⟩
        · unfold pending at h2 ⊢
          rw [List.filter_cons_of_neg (by simpa using ha), h2,
            List.filter_cons_of_neg (by simpa using ha)]
        · intro k hk
          have h4' := h4 k hk
          unfold pending at h4' ⊢
          by_cases hak : a.window = k ∧ maskable a.type = true
          · rw [List.filter_cons_of_pos (by simpa using hak),
              List.filter_cons_of_pos (by simpa using hak), h4']
          · rw [List.filter_cons_of_neg (by simpa using hak),
              List.filter_cons_of_neg (by simpa using hak), h4']

/-- A retrievable event of a window is one of the events addressed to it. -/
theorem pending_any_of_addressed (q : List XEvent) (w : WindowHandle) (p : XEvent → Bool)
    (h : (addressed q w).any p = false) : (pending q w).any p = false := by
  induction q with
  | nil => rfl
  | cons e q ih =>
    unfold addressed pending at *
    by_cases he : e.window = w
    · rw [List.filter_cons_of_pos (by simpa using he)] at h
      simp only [List.any_cons, Bool.or_eq_false_iff] at h
      by_cases hm : maskable e.type = true
      · rw [List.filter_cons_of_pos (by simp [he, hm])]
        simp only [List.any_cons, Bool.or_eq_false_iff]
        exact ⟨h.1, ih h.2⟩
      · rw [List.filter_cons_of_neg (by simp [he, hm])]
        exact ih h.2
    · rw [List.filter_cons_of_neg (by simpa using he)] at h
      rw [List.filter_cons_of_neg (by simp [he])]
      exact ih h

theorem x11_pollBody_queue (s : State) (w : WindowHandle) (e : XEvent) :
    (pollBody s w e).queue = s.queue ∧ (pollBody s w e).g_display = s.g_display := by
  unfold pollBody
  split_ifs <;> exact ⟨rfl, rfl⟩

theorem x11_pollBody_other (s : State) {w k : WindowHandle} (e : XEvent) (hk : k ≠ w) :
    (pollBody s w e).g_windows k = s.g_windows k := by
  unfold pollBody
  split_ifs <;> simp [Registry.close_other _ hk]

theorem x11_pollBody_same (s : State) {w : WindowHandle} (e : XEvent) {d : WindowData}
    (hd : s.g_windows w = some d) :
    (pollBody s w e).g_windows w = some (applyEvent d e) := by
  unfold pollBody applyEvent closeSignal
  by_cases h1 : e.type = DestroyNotify
  · simp [h1, Registry.close_same _ hd]
  · by_cases h2 : e.type = ClientMessage
    · simp [h2, Registry.close_same _ hd]
    · simp [h1, h2, hd]

/-- The loop with enough iterations: the record of the polled window receives the
pending events in order, every other record is kept, and exactly the pending events of
the polled window leave the queue. -/
theorem x11_pollLoop_spec (w : WindowHandle) (n : Nat) (s : State) (d : WindowData)
    (hd : s.g_windows w = some d) (hn : s.queue.length ≤ n) :
    (pollLoop n w s).g_windows w = some ((pending s.queue w).foldl applyEvent d) ∧
    (∀ k, k ≠ w → (pollLoop n w s).g_windows k = s.g_windows k) ∧
    pending (pollLoop n w s).queue w = [] ∧
    (∀ k, k ≠ w → pending (pollLoop n w s).queue k = pending s.queue k) ∧
    (pollLoop n w s).g_display = s.g_display := by
  induction n generalizing s d with
  | zero =>
    have hq : s.queue = [] := List.length_eq_zero.mp (Nat.le_zero.mp hn)
    simp [pollLoop, hq, pending, hd]
  | succ n ih =>
    cases hp : XCheckWindowEvent s.queue w with
    | none =>
      have hnil := (XCheckWindowEvent_none s.queue w).mp hp
      simp [pollLoop, hp, hnil, hd]
    | some p =>
      obtain ⟨e, rest⟩ := p
      obtain ⟨_, hpend, hlen, hoth⟩ := XCheckWindowEvent_some hp
      have hd2 : (pollBody { s with queue := rest } w e).g_windows w =
          some (applyEvent d e) := x11_pollBody_same _ e hd
      have hq2 : (pollBody { s with queue := rest } w e).queue = rest :=
        (x11_pollBody_queue _ _ _).1
      have hn2 : (pollBody { s with queue := rest } w e).queue.length ≤ n := by
        rw [hq2]; omega
      obtain ⟨i1, i2, i3, i4, i5⟩ := ih _ _ hd2 hn2
      simp only [pollLoop, hp]
      refine ⟨?_, ?_, i3, ?_, ?_⟩
      · rw [i1, hq2, hpend]; rfl
      · intro k hk
        rw [i2 k hk]
        exact x11_pollBody_other _ e hk
      · intro k hk
        rw [i4 k hk, hq2]
        exact hoth k hk
      · rw [i5]
        exact (x11_pollBody_queue _ _ _).2

/-- The bound used by `jp_poll_events` is enough: the loop leaves through its exit test
(no event of the window is left), and more iterations change nothing. -/
theorem x11_pollLoop_fuel (w : WindowHandle) (n : Nat) (s : State) (hn : s.queue.length ≤ n) :
    XCheckWindowEvent (pollLoop n w s).queue w = none ∧
      pollLoop (n + 1) w s = pollLoop n w s := by
  induction n generalizing s with
  | zero =>
    have hq : s.queue = [] := List.length_eq_zero.mp (Nat.le_zero.mp hn)
    simp [pollLoop, hq, XCheckWindowEvent]
  | succ n ih =>
    cases hp : XCheckWindowEvent s.queue w with
    | none => simp [pollLoop, hp]
    | some p =>
      obtain ⟨e, rest⟩ := p
      obtain ⟨_, _, hlen, _⟩ := XCheckWindowEvent_some hp
      have hn2 : (pollBody { s with queue := rest } w e).queue.length ≤ n := by
        rw [(x11_pollBody_queue _ _ _).1]
        show rest.length ≤ n
        omega
      obtain ⟨i1, i2⟩ := ih _ hn2
      constructor
      · simpa [pollLoop, hp] using i1
      · have e1 : pollLoop (n + 1 + 1) w s =
            pollLoop (n + 1) w (pollBody { s with queue := rest } w e) := by
          simp [pollLoop, hp]
        have e2 : pollLoop (n + 1) w s =
            pollLoop n w (pollBody { s with queue := rest } w e) := by
          simp [pollLoop, hp]
        rw [e1, e2, i2]

theorem foldl_applyEvent_frame (es : List XEvent) (d : WindowData) :
    (es.foldl applyEvent d).handle = d.handle ∧ (es.foldl applyEvent d).title = d.title ∧
      (es.foldl applyEvent d).display = d.display ∧
      (es.foldl applyEvent d).width = d.width ∧ (es.foldl applyEvent d).height = d.height := by
  induction es generalizing d with
  | nil => simp
  | cons e es ih =>
    obtain ⟨h1, h2, h3, h4, h5⟩ := ih (applyEvent d e)
    simp only [List.foldl_cons]
    rw [h1, h2, h3, h4, h5]
    unfold applyEvent
    split_ifs <;> simp

theorem foldl_applyEvent_shouldClose (es : List XEvent) (d : WindowData) :
    (es.foldl applyEvent d).shouldClose = (d.shouldClose || es.any closeSignal) := by
  induction es generalizing d with
  | nil => simp
  | cons e es ih =>
    simp only [List.foldl_cons, List.any_cons]
    rw [ih]
    unfold applyEvent
    cases closeSignal e <;> simp

/-- Function `jp_poll_events` on a registered, non-null handle with the display open. -/
theorem x11_jp_poll_events_registered (s : State) (h : WindowHandle) (d : WindowData)
    (h0 : h ≠ 0) (hdpy : s.g_display ≠ 0) (hd : s.g_windows h = some d) :
    (jp_poll_events s h).1 = !((pending s.queue h).foldl applyEvent d).shouldClose ∧
    (jp_poll_events s h).2.g_windows h = some ((pending s.queue h).foldl applyEvent d) ∧
    (∀ k, k ≠ h → (jp_poll_events s h).2.g_windows k = s.g_windows k) ∧
    pending (jp_poll_events s h).2.queue h = [] ∧
    (∀ k, k ≠ h → pending (jp_poll_events s h).2.queue k = pending s.queue k) ∧
    (jp_poll_events s h).2.g_display = s.g_display := by
  obtain ⟨i1, i2, i3, i4, i5⟩ := x11_pollLoop_spec h s.queue.length s d hd (Nat.le_refl _)
  have e : jp_poll_events s h =
      (!((pending s.queue h).foldl applyEvent d).shouldClose,
        pollLoop s.queue.length h s) := by
    simp [jp_poll_events, h0, hdpy, hd, i1]
  rw [e]
  exact ⟨rfl, i1, i2, i3, i4, i5⟩

/-- Function `jp_poll_events` on a handle without registry entry. -/
theorem x11_jp_poll_events_absent (s : State) (h : WindowHandle) (hd : s.g_windows h = none) :
    jp_poll_events s h = (false, s) := by
  unfold jp_poll_events
  split_ifs
  · rfl
  · simp [hd]

/-- Function `jp_poll_events` behind its guard: null handle or no display. -/
theorem jp_poll_events_guard (s : State) (h : WindowHandle) (hg : h = 0 ∨ s.g_display = 0) :
    jp_poll_events s h = (false, s) := by
  simp [jp_poll_events, hg]

/-! ## X11: effect of each function on the registry -/

theorem x11_jp_create_window_fail (s : State) (title : String) (width height : Int)
    (dpy : Nat) (screen : Int) (window : WindowHandle)
    (hf : (s.g_display = 0 ∧ dpy = 0) ∨ window = 0) :
    (jp_create_window s title width height dpy screen window).1 = 0 ∧
      (jp_create_window s title width height dpy screen window).2.g_windows = s.g_windows ∧
      (jp_create_window s title width height dpy screen window).2.queue = s.queue := by
  unfold jp_create_window
  by_cases h1 : s.g_display = 0 ∧ dpy = 0
  · simp [h1]
  · have hw : window = 0 := hf.resolve_left h1
    simp only [h1, if_false, hw, if_true]
    split_ifs <;> simp

theorem x11_jp_create_window_ok (s : State) (title : String) (width height : Int)
    (dpy : Nat) (screen : Int) (window : WindowHandle)
    (h1 : ¬ (s.g_display = 0 ∧ dpy = 0)) (h0 : window ≠ 0) :
    (jp_create_window s title width height dpy screen window).1 = window ∧
      (jp_create_window s title width height dpy screen window).2.g_windows =
        s.g_windows.insert window
          ⟨window, false, title, width, height, if s.g_display = 0 then dpy else s.g_display⟩ ∧
      (jp_create_window s title width height dpy screen window).2.queue = s.queue ∧
      (jp_create_window s title width height dpy screen window).2.g_display ≠ 0 := by
  unfold jp_create_window
  simp only [h1, if_false, h0]
  by_cases h2 : s.g_display = 0
  · have h3 : dpy ≠ 0 := fun e => h1 ⟨h2, e⟩
    simp [h2, h3]
  · simp [h2]

theorem jp_create_window_display (s : State) (title : String) (width height : Int)
    (dpy : Nat) (screen : Int) (window : WindowHandle) (hd : s.g_display ≠ 0) :
    (jp_create_window s title width height dpy screen window).2.g_display = s.g_display := by
  unfold jp_create_window
  simp only [hd, false_and, if_false]
  split_ifs <;> rfl

theorem x11_jp_show_window_frame (s : State) (w : WindowHandle) :
    (jp_show_window s w).g_windows = s.g_windows ∧ (jp_show_window s w).queue = s.queue ∧
      (jp_show_window s w).g_display = s.g_display := by
  unfold jp_show_window
  split_ifs <;> exact ⟨rfl, rfl, rfl⟩

theorem x11_jp_set_window_title_same (s : State) (w : WindowHandle) (t : String)
    (d : WindowData) (h0 : w ≠ 0) (hdpy : s.g_display ≠ 0) (hd : s.g_windows w = some d) :
    (jp_set_window_title s w t).g_windows w = some { d with title := t } := by
  simp [jp_set_window_title, h0, hdpy, hd, Registry.insert]

theorem x11_jp_set_window_title_other (s : State) (w k : WindowHandle) (t : String)
    (hk : k ≠ w) : (jp_set_window_title s w t).g_windows k = s.g_windows k := by
  unfold jp_set_window_title
  split_ifs
  · simp only []
    cases s.g_windows w <;> simp [Registry.insert, hk]
  · rfl

theorem x11_jp_set_window_title_absent (s : State) (w : WindowHandle) (t : String)
    (hd : s.g_windows w = none) :
    (jp_set_window_title s w t).g_windows = s.g_windows := by
  unfold jp_set_window_title
  split_ifs
  · simp [hd]
  · rfl

theorem x11_jp_set_window_title_queue (s : State) (w : WindowHandle) (t : String) :
    (jp_set_window_title s w t).queue = s.queue ∧
      (jp_set_window_title s w t).g_display = s.g_display := by
  unfold jp_set_window_title
  split_ifs
  · simp only []
    cases s.g_windows w <;> exact ⟨rfl, rfl⟩
  · exact ⟨rfl, rfl⟩

theorem x11_jp_destroy_window_same (s : State) (w : WindowHandle) (h0 : w ≠ 0)
    (hdpy : s.g_display ≠ 0) : (jp_destroy_window s w).g_windows w = none := by
  unfold jp_destroy_window
  simp only [h0, hdpy, or_self, if_false]
  cases hd : s.g_windows w <;> simp [Registry.erase, hd]

theorem x11_jp_destroy_window_other (s : State) (w k : WindowHandle) (hk : k ≠ w) :
    (jp_destroy_window s w).g_windows k = s.g_windows k := by
  unfold jp_destroy_window
  split_ifs
  · rfl
  · simp only []
    cases s.g_windows w <;> simp [Registry.erase, hk]

theorem x11_jp_destroy_window_absent (s : State) (w : WindowHandle) (hd : s.g_windows w = none) :
    (jp_destroy_window s w).g_windows = s.g_windows := by
  unfold jp_destroy_window
  split_ifs
  · rfl
  · simp [hd]

theorem x11_jp_destroy_window_queue (s : State) (w : WindowHandle) :
    (jp_destroy_window s w).queue = s.queue ∧
      (jp_destroy_window s w).g_display = s.g_display := by
  unfold jp_destroy_window
  split_ifs <;> exact ⟨rfl, rfl⟩

/-- Function `jp_poll_events` never touches the record of another window. -/
theorem x11_jp_poll_events_other (s : State) (w k : WindowHandle) (hk : k ≠ w) :
    (jp_poll_events s w).2.g_windows k = s.g_windows k := by
  by_cases hg : w = 0 ∨ s.g_display = 0
  · rw [jp_poll_events_guard s w hg]
  · cases hd : s.g_windows w with
    | none => rw [x11_jp_poll_events_absent s w hd]
    | some d =>
      have h0 : w ≠ 0 := fun e => hg (Or.inl e)
      have h1 : s.g_display ≠ 0 := fun e => hg (Or.inr e)
      exact (x11_jp_poll_events_registered s w d h0 h1 hd).2.2.1 k hk

theorem jp_poll_events_display (s : State) (w : WindowHandle) :
    (jp_poll_events s w).2.g_display = s.g_display := by
  by_cases hg : w = 0 ∨ s.g_display = 0
  · rw [jp_poll_events_guard s w hg]
  · cases hd : s.g_windows w with
    | none => rw [x11_jp_poll_events_absent s w hd]
    | some d =>
      have h0 : w ≠ 0 := fun e => hg (Or.inl e)
      have h1 : s.g_display ≠ 0 := fun e => hg (Or.inr e)
      exact (x11_jp_poll_events_registered s w d h0 h1 hd).2.2.2.2.2

/-! ## X11: invariant -/

theorem x11_init_inv : Inv init := by
  intro k d h
  simp [init, Registry.none] at h

theorem x11_step_inv (s : State) (op : Op) (hI : Inv s) : Inv (step s op) := by
  intro k d hk
  cases op with
  | create title width height dpy screen window =>
    by_cases hf : (s.g_display = 0 ∧ dpy = 0) ∨ window = 0
    · rw [step, (x11_jp_create_window_fail s title width height dpy screen window hf).2.1] at hk
      obtain ⟨a, b, c⟩ := hI k d hk
      refine ⟨a, b, ?_⟩
      rw [step, jp_create_window_display s title width height dpy screen window c]
      exact c
    · have h1 : ¬ (s.g_display = 0 ∧ dpy = 0) := fun e => hf (Or.inl e)
      have h0 : window ≠ 0 := fun e => hf (Or.inr e)
      obtain ⟨_, e2, _, e4⟩ := x11_jp_create_window_ok s title width height dpy screen window h1 h0
      rw [step, e2] at hk
      by_cases e : k = window
      · subst e
        rw [Registry.insert_same] at hk
        cases hk
        exact ⟨h0, rfl, e4⟩
      · rw [Registry.insert_other _ _ e] at hk
        obtain ⟨a, b, _⟩ := hI k d hk
        exact ⟨a, b, e4⟩
  | showWindow w =>
    rw [step, (x11_jp_show_window_frame s w).1] at hk
    rw [step, (x11_jp_show_window_frame s w).2.2]
    exact hI k d hk
  | post e => exact hI k d hk
  | poll w =>
    rw [step, jp_poll_events_display]
    by_cases e : k = w
    · subst e
      cases hd : s.g_windows k with
      | none =>
        rw [step, x11_jp_poll_events_absent s k hd] at hk
        exact hI k d hk
      | some d0 =>
        obtain ⟨a, b, c⟩ := hI k d0 hd
        rw [step, (x11_jp_poll_events_registered s k d0 a c hd).2.1] at hk
        cases hk
        exact ⟨a, by rw [(foldl_applyEvent_frame _ d0).1]; exact b, c⟩
    · rw [step, x11_jp_poll_events_other s w k e] at hk
      exact hI k d hk
  | setTitle w t =>
    rw [step, (x11_jp_set_window_title_queue s w t).2]
    by_cases e : k = w
    · subst e
      cases hd : s.g_windows k with
      | none =>
        rw [step, x11_jp_set_window_title_absent s k t hd] at hk
        exact hI k d hk
      | some d0 =>
        obtain ⟨a, b, c⟩ := hI k d0 hd
        rw [step, x11_jp_set_window_title_same s k t d0 a c hd] at hk
        cases hk
        exact ⟨a, b, c⟩
    · rw [step, x11_jp_set_window_title_other s w k t e] at hk
      exact hI k d hk
  | destroy w =>
    rw [step, (x11_jp_destroy_window_queue s w).2]
    by_cases e : k = w
    · subst e
      cases hd : s.g_windows k with
      | none =>
        rw [step, x11_jp_destroy_window_absent s k hd] at hk
        exact hI k d hk
      | some d0 =>
        obtain ⟨a, _, c⟩ := hI k d0 hd
        rw [step, x11_jp_destroy_window_same s k a c] at hk
        cases hk
    · rw [step, x11_jp_destroy_window_other s w k e] at hk
      exact hI k d hk

theorem x11_run_inv (ops : List Op) (s : State) (hI : Inv s) : Inv (run s ops) := by
  induction ops generalizing s with
  | nil => exact hI
  | cons op ops ih => exact ih (step s op) (x11_step_inv s op hI)

end X11

/-! ## Properties of a record that survive the operations -/

namespace Win32

theorem foldl_applyMsg_preserve (P : WindowData → Prop)
    (hmsg : ∀ d m, P d → P (applyMsg d m)) (ms : List MSG) (d : WindowData) (hd : P d) :
    P (ms.foldl applyMsg d) := by
  induction ms generalizing d with
  | nil => exact hd
  | cons m ms ih => exact ih _ (hmsg d m hd)

theorem drained_preserve (P : WindowData → Prop)
    (hmsg : ∀ d m, P d → P (applyMsg d m)) (qf quit : Bool) (ms : List MSG)
    (d : WindowData) (hd : P d) : P (drained qf quit ms d) := by
  have h1 := foldl_applyMsg_preserve P hmsg ms d hd
  unfold drained
  split_ifs
  · have e : ({ ms.foldl applyMsg d with shouldClose := true } : WindowData) =
        applyMsg (ms.foldl applyMsg d) ⟨0, WM_CLOSE, 0, 0⟩ := by
      simp [applyMsg]
    rw [e]
    exact hmsg _ _ h1
  · exact h1

theorem jp_poll_events_preserve (P : WindowData → Prop)
    (hmsg : ∀ d m, P d → P (applyMsg d m)) (s : State) (w h : WindowHandle)
    (d : WindowData) (hd : s.g_windows h = some d) (hP : P d) :
    ∃ d', (jp_poll_events s w).2.g_windows h = some d' ∧ P d' := by
  by_cases e : h = w
  · subst e
    by_cases h0 : h = 0
    · have e0 : jp_poll_events s h = (false, s) := by simp [jp_poll_events, h0]
      rw [e0]
      exact ⟨d, hd, hP⟩
    · exact ⟨_, (jp_poll_events_registered s h d h0 hd).2.1,
        drained_preserve P hmsg _ _ _ d hP⟩
  · rw [jp_poll_events_other s w h e]
    exact ⟨d, hd, hP⟩

theorem step_preserve (P : WindowData → Prop) (hmsg : ∀ d m, P d → P (applyMsg d m))
    (s : State) (h : WindowHandle) (op : Op) (d : WindowData)
    (htitle : ∀ t, op = Op.setTitle h t → ∀ x : WindowData, P x → P { x with title := t })
    (hd : s.g_windows h = some d) (hP : P d) (hk : Op.keeps h op = true) :
    ∃ d', (step s op).g_windows h = some d' ∧ P d' := by
  cases op with
  | create title width height registerOk hwnd =>
    have hne : h ≠ hwnd := by
      have : hwnd ≠ h := by simpa [Op.keeps] using hk
      exact fun e => this e.symm
    by_cases h0 : hwnd = 0
    · subst h0
      rw [step, (jp_create_window_fail s title width height registerOk).2.1]
      exact ⟨d, hd, hP⟩
    · rw [step, (jp_create_window_ok s title width height registerOk hwnd h0).2.1,
        Registry.insert_other _ _ hne]
      exact ⟨d, hd, hP⟩
  | showWindow w =>
    rw [step, (jp_show_window_frame s w).1]
    exact ⟨d, hd, hP⟩
  | post m => exact ⟨d, hd, hP⟩
  | poll w => exact jp_poll_events_preserve P hmsg s w h d hd hP
  | setTitle w t =>
    by_cases e : h = w
    · subst e
      by_cases h0 : h = 0
      · have e0 : jp_set_window_title s h t = s := by simp [jp_set_window_title, h0]
        rw [step, e0]
        exact ⟨d, hd, hP⟩
      · rw [step, jp_set_window_title_same s h t d h0 hd]
        exact ⟨_, rfl, htitle t rfl d hP⟩
    · rw [step, jp_set_window_title_other s w h t e]
      exact ⟨d, hd, hP⟩
  | destroy w =>
    have hne : h ≠ w := by
      have : w ≠ h := by simpa [Op.keeps] using hk
      exact fun e => this e.symm
    rw [step, jp_destroy_window_other s w h hne]
    exact ⟨d, hd, hP⟩

theorem run_preserve (P : WindowData → Prop) (hmsg : ∀ d m, P d → P (applyMsg d m))
    (h : WindowHandle) (ops : List Op)
    (htitle : ∀ op ∈ ops, ∀ t, op = Op.setTitle h t →
      ∀ x : WindowData, P x → P { x with title := t })
    (hk : ∀ op ∈ ops, Op.keeps h op = true) (s : State) (d : WindowData)
    (hd : s.g_windows h = some d) (hP : P d) :
    ∃ d', (run s ops).g_windows h = some d' ∧ P d' := by
  induction ops generalizing s d with
  | nil => exact ⟨d, hd, hP⟩
  | cons op ops ih =>
    obtain ⟨d1, hd1, hP1⟩ := step_preserve P hmsg s h op d
      (htitle op (List.mem_cons_self _ _)) hd hP (hk op (List.mem_cons_self _ _))
    exact ih (fun o ho => htitle o (List.mem_cons_of_mem _ ho))
      (fun o ho => hk o (List.mem_cons_of_mem _ ho)) (step s op) d1 hd1 hP1

theorem keeps_of_keepsTitle (h : WindowHandle) (op : Op) (hk : Op.keepsTitle h op = true) :
    Op.keeps h op = true := by
  cases op <;> simp_all [Op.keeps, Op.keepsTitle]

theorem applyMsg_shouldClose (d : WindowData) (m : MSG) (hd : d.shouldClose = true) :
    (applyMsg d m).shouldClose = true := by
  unfold applyMsg
  split_ifs <;> simp [hd]

theorem applyMsg_title (d : WindowData) (m : MSG) : (applyMsg d m).title = d.title := by
  unfold applyMsg
  split_ifs <;> rfl

end Win32

namespace X11

theorem foldl_applyEvent_preserve (P : WindowData → Prop)
    (hev : ∀ d e, P d → P (applyEvent d e)) (es : List XEvent) (d : WindowData) (hd : P d) :
    P (es.foldl applyEvent d) := by
  induction es generalizing d with
  | nil => exact hd
  | cons e es ih => exact ih _ (hev d e hd)

theorem x11_jp_poll_events_preserve (P : WindowData → Prop)
    (hev : ∀ d e, P d → P (applyEvent d e)) (s : State) (w h : WindowHandle)
    (d : WindowData) (hd : s.g_windows h = some d) (hP : P d) :
    ∃ d', (jp_poll_events s w).2.g_windows h = some d' ∧ P d' := by
  by_cases e : h = w
  · subst e
    by_cases hg : h = 0 ∨ s.g_display = 0
    · rw [jp_poll_events_guard s h hg]
      exact ⟨d, hd, hP⟩
    · have h0 : h ≠ 0 := fun e => hg (Or.inl e)
      have h1 : s.g_display ≠ 0 := fun e => hg (Or.inr e)
      exact ⟨_, (x11_jp_poll_events_registered s h d h0 h1 hd).2.1,
        foldl_applyEvent_preserve P hev _ d hP⟩
  · rw [x11_jp_poll_events_other s w h e]
    exact ⟨d, hd, hP⟩

theorem jp_set_window_title_guard (s : State) (w : WindowHandle) (t : String)
    (hg : w = 0 ∨ s.g_display = 0) : jp_set_window_title s w t = s := by
  unfold jp_set_window_title
  rcases hg with hg | hg <;> simp [hg]

theorem jp_destroy_window_guard (s : State) (w : WindowHandle)
    (hg : w = 0 ∨ s.g_display = 0) : jp_destroy_window s w = s := by
  unfold jp_destroy_window
  rcases hg with hg | hg <;> simp [hg]

theorem jp_show_window_guard (s : State) (w : WindowHandle)
    (hg : w = 0 ∨ s.g_display = 0) : jp_show_window s w = s := by
  unfold jp_show_window
  rcases hg with hg | hg <;> simp [hg]

theorem x11_step_preserve (P : WindowData → Prop) (hev : ∀ d e, P d → P (applyEvent d e))
    (s : State) (h : WindowHandle) (op : Op) (d : WindowData)
    (htitle : ∀ t, op = Op.setTitle h t → ∀ x : WindowData, P x → P { x with title := t })
    (hd : s.g_windows h = some d) (hP : P d) (hk : Op.keeps h op = true) :
    ∃ d', (step s op).g_windows h = some d' ∧ P d' := by
  cases op with
  | create title width height dpy screen window =>
    have hne : h ≠ window := by
      have : window ≠ h := by simpa [Op.keeps] using hk
      exact fun e => this e.symm
    by_cases hf : (s.g_display = 0 ∧ dpy = 0) ∨ window = 0
    · rw [step, (x11_jp_create_window_fail s title width height dpy screen window hf).2.1]
      exact ⟨d, hd, hP⟩
    · have h1 : ¬ (s.g_display = 0 ∧ dpy = 0) := fun e => hf (Or.inl e)
      have h0 : window ≠ 0 := fun e => hf (Or.inr e)
      rw [step, (x11_jp_create_window_ok s title width height dpy screen window h1 h0).2.1,
        Registry.insert_other _ _ hne]
      exact ⟨d, hd, hP⟩
  | showWindow w =>
    rw [step, (x11_jp_show_window_frame s w).1]
    exact ⟨d, hd, hP⟩
  | post e => exact ⟨d, hd, hP⟩
  | poll w => exact x11_jp_poll_events_preserve P hev s w h d hd hP
  | setTitle w t =>
    by_cases e : h = w
    · subst e
      by_cases hg : h = 0 ∨ s.g_display = 0
      · rw [step, jp_set_window_title_guard s h t hg]
        exact ⟨d, hd, hP⟩
      · have h0 : h ≠ 0 := fun e => hg (Or.inl e)
        have h1 : s.g_display ≠ 0 := fun e => hg (Or.inr e)
        rw [step, x11_jp_set_window_title_same s h t d h0 h1 hd]
        exact ⟨_, rfl, htitle t rfl d hP⟩
    · rw [step, x11_jp_set_window_title_other s w h t e]
      exact ⟨d, hd, hP⟩
  | destroy w =>
    have hne : h ≠ w := by
      have : w ≠ h := by simpa [Op.keeps] using hk
      exact fun e => this e.symm
    rw [step, x11_jp_destroy_window_other s w h hne]
    exact ⟨d, hd, hP⟩

theorem x11_run_preserve (P : WindowData → Prop) (hev : ∀ d e, P d → P (applyEvent d e))
    (h : WindowHandle) (ops : List Op)
    (htitle : ∀ op ∈ ops, ∀ t, op = Op.setTitle h t →
      ∀ x : WindowData, P x → P { x with title := t })
    (hk : ∀ op ∈ ops, Op.keeps h op = true) (s : State) (d : WindowData)
    (hd : s.g_windows h = some d) (hP : P d) :
    ∃ d', (run s ops).g_windows h = some d' ∧ P d' := by
  induction ops generalizing s d with
  | nil => exact ⟨d, hd, hP⟩
  | cons op ops ih =>
    obtain ⟨d1, hd1, hP1⟩ := x11_step_preserve P hev s h op d
      (htitle op (List.mem_cons_self _ _)) hd hP (hk op (List.mem_cons_self _ _))
    exact ih (fun o ho => htitle o (List.mem_cons_of_mem _ ho))
      (fun o ho => hk o (List.mem_cons_of_mem _ ho)) (step s op) d1 hd1 hP1

theorem x11_keeps_of_keepsTitle (h : WindowHandle) (op : Op) (hk : Op.keepsTitle h op = true) :
    Op.keeps h op = true := by
  cases op <;> simp_all [Op.keeps, Op.keepsTitle]

theorem applyEvent_shouldClose (d : WindowData) (e : XEvent) (hd : d.shouldClose = true) :
    (applyEvent d e).shouldClose = true := by
  unfold applyEvent
  split_ifs <;> simp [hd]

theorem applyEvent_title (d : WindowData) (e : XEvent) : (applyEvent d e).title = d.title := by
  unfold applyEvent
  split_ifs <;> rfl

/-- A poll without pending event of the polled window leaves the loop at once. -/
theorem x11_pollLoop_idle (n : Nat) (w : WindowHandle) (s : State) (hq : pending s.queue w = []) :
    pollLoop n w s = s := by
  have hp := (XCheckWindowEvent_none s.queue w).mpr hq
  cases n <;> simp [pollLoop, hp]

end X11

/-! ## Records that a poll leaves as they are, and size changes -/

namespace Win32

theorem foldl_applyMsg_idle (ms : List MSG) (d : WindowData)
    (hc : ms.any closeSignal = false) (hs : ms.any sizeMsg = false) :
    ms.foldl applyMsg d = d := by
  induction ms with
  | nil => rfl
  | cons m ms ih =>
    simp only [List.any_cons, Bool.or_eq_false_iff] at hc hs
    have h1 : ¬ m.message = WM_CLOSE ∧ ¬ m.message = WM_QUIT := by
      simpa [closeSignal] using hc.1
    have h2 : ¬ m.message = WM_SIZE := by simpa [sizeMsg] using hs.1
    have e : applyMsg d m = d := by simp [applyMsg, h1.1, h1.2, h2]
    rw [List.foldl_cons, e]
    exact ih hc.2 hs.2

theorem specSignal_split (ms : List MSG) (h : ms.any specSignal = false) :
    ms.any closeSignal = false ∧ ms.any destroyMsg = false := by
  induction ms with
  | nil => exact ⟨rfl, rfl⟩
  | cons m ms ih =>
    simp only [List.any_cons, Bool.or_eq_false_iff] at h ⊢
    obtain ⟨i1, i2⟩ := ih h.2
    have hm : (¬ m.message = WM_CLOSE ∧ ¬ m.message = WM_DESTROY) ∧ ¬ m.message = WM_QUIT := by
      simpa [specSignal, not_or] using h.1
    exact ⟨⟨by simp [closeSignal, hm.1.1, hm.2], i1⟩, ⟨by simp [destroyMsg, hm.1.2], i2⟩⟩

/-- What nothing-to-close and nothing-to-resize among the pending messages means for the
posted messages and the quit flag. -/
theorem pending_quiet (s : State) (h : WindowHandle)
    (hc : (pending s h).any specSignal = false) (hs : (pending s h).any sizeMsg = false) :
    (queued s.queue h).any specSignal = false ∧ (queued s.queue h).any sizeMsg = false ∧
      (s.quitThroughFilter && s.quitPosted) = false := by
  unfold pending at hc hs
  rw [List.any_append, Bool.or_eq_false_iff] at hc hs
  refine ⟨hc.1, hs.1, ?_⟩
  cases hq : (s.quitThroughFilter && s.quitPosted)
  · rfl
  · have := hc.2
    rw [hq] at this
    simp [quitMessage, specSignal] at this

/-- Without close or destroy signal, without size message and without quit message
coming through, the drained record is the record before the poll. -/
theorem drained_idle (qf quit : Bool) (ms : List MSG) (d : WindowData)
    (hc : ms.any specSignal = false) (hs : ms.any sizeMsg = false)
    (hq : (qf && quit) = false) : drained qf quit ms d = d := by
  obtain ⟨h1, h2⟩ := specSignal_split ms hc
  have hcond : (qf && (quit || ms.any destroyMsg)) = false := by
    rw [h2, Bool.or_false]
    exact hq
  unfold drained
  rw [hcond]
  simpa using foldl_applyMsg_idle ms d h1 hs

/-- Last-writer-wins on Win32: after a poll of a registered window whose posted messages
contain a `WM_SIZE`, width and height are the low and high word of the last one. -/
theorem jp_poll_events_last_size (s : State) (h : WindowHandle) (d : WindowData) (m : MSG)
    (h0 : h ≠ 0) (hd : s.g_windows h = some d)
    (hm : ((queued s.queue h).filter sizeMsg).getLast? = some m) :
    ∃ d', (jp_poll_events s h).2.g_windows h = some d' ∧
      d'.width = (LOWORD m.lParam : Nat) ∧ d'.height = (HIWORD m.lParam : Nat) :=
  ⟨_, (jp_poll_events_registered s h d h0 hd).2.1, drained_last_size _ _ _ d m hm⟩

end Win32

namespace X11

theorem foldl_applyEvent_idle (es : List XEvent) (d : WindowData)
    (hc : es.any closeSignal = false) : es.foldl applyEvent d = d := by
  induction es with
  | nil => rfl
  | cons e es ih =>
    simp only [List.any_cons, Bool.or_eq_false_iff] at hc
    have e1 : applyEvent d e = d := by simp [applyEvent, hc.1]
    rw [List.foldl_cons, e1]
    exact ih hc.2

/-- On X11 a poll never changes the recorded width and height, whatever is queued. -/
theorem jp_poll_events_size_frozen (s : State) (h k : WindowHandle) (d : WindowData)
    (hd : s.g_windows k = some d) :
    ∃ d', (jp_poll_events s h).2.g_windows k = some d' ∧
      d'.width = d.width ∧ d'.height = d.height :=
  x11_jp_poll_events_preserve (fun x => x.width = d.width ∧ x.height = d.height)
    (fun x e hx => by
      unfold applyEvent
      split_ifs <;> exact hx) s h k d hd ⟨rfl, rfl⟩

/-- On X11 a poll of a registered window hands nothing to the loop while every event
addressed to the window is of a type without event mask (a `ClientMessage` for one): the
result is the negation of `shouldClose` as it was, and the state is the one before. -/
theorem jp_poll_events_unmaskable (s : State) (h : WindowHandle) (d : WindowData)
    (hI : Inv s) (hd : s.g_windows h = some d)
    (hq : ∀ e ∈ addressed s.queue h, maskable e.type = false) :
    jp_poll_events s h = (!d.shouldClose, s) := by
  obtain ⟨a, _, c⟩ := hI h d hd
  have hp : pending s.queue h = [] := by
    unfold pending
    rw [List.filter_eq_nil_iff]
    intro e he
    by_cases hw : e.window = h
    · have : e ∈ addressed s.queue h := by
        unfold addressed
        exact List.mem_filter.mpr ⟨he, by simpa using hw⟩
      simp [hq e this]
    · simp [hw]
  simp [jp_poll_events, a, c, hd, x11_pollLoop_idle _ h s hp]

end X11

/-! ## The claims -/

/-- C1, evaluation at the failing input.  X11: the window `1` of the scenario is
registered and a `ClientMessage` (the close request of the window manager) is queued for
it; `jp_poll_events` returns `true`, leaves `shouldClose = false` and leaves the event in
the queue, because `XCheckWindowEvent` hands over no event without event mask and the
`case ClientMessage` of the loop is never reached; a `DestroyNotify` in its place gives
`false`.  Win32: with a `WM_DESTROY` queued the result follows the native layer: `false`
where the quit message that `PostQuitMessage` makes pending comes through the window
filter of `PeekMessageA`, and `true` with the quit flag left set where it does not. -/
theorem C1_close_request_lost :
    (X11.jp_poll_events
        (X11.run X11.created [X11.Op.post ⟨X11.ClientMessage, 1, 0, 0⟩]) 1).1 = true ∧
      (X11.jp_poll_events
        (X11.run X11.created [X11.Op.post ⟨X11.ClientMessage, 1, 0, 0⟩]) 1).2.g_windows 1 =
        some ⟨1, false, "T", 800, 600, 9⟩ ∧
      (X11.jp_poll_events
        (X11.run X11.created [X11.Op.post ⟨X11.ClientMessage, 1, 0, 0⟩]) 1).2.queue =
        [⟨X11.ClientMessage, 1, 0, 0⟩] ∧
      (X11.jp_poll_events
        (X11.run X11.created [X11.Op.post ⟨X11.DestroyNotify, 1, 0, 0⟩]) 1).1 = false ∧
      (Win32.jp_poll_events
        (Win32.run (Win32.created true) [Win32.Op.post ⟨1, Win32.WM_DESTROY, 0, 0⟩]) 1).1 =
        false ∧
      (Win32.jp_poll_events
        (Win32.run (Win32.created false) [Win32.Op.post ⟨1, Win32.WM_DESTROY, 0, 0⟩]) 1).1 =
        true ∧
      (Win32.jp_poll_events
        (Win32.run (Win32.created false)
          [Win32.Op.post ⟨1, Win32.WM_DESTROY, 0, 0⟩]) 1).2.quitPosted = true := by
  decide

/-- C2.  For a handle without registry entry, and for the null handle, `jp_poll_events`
returns `false` and the whole state (registry, every record, the queued events, the
log of native calls) is the one before the call. -/
theorem C2_poll_unregistered :
    (∀ (s : Win32.State) (h : WindowHandle), s.g_windows h = none ∨ h = 0 →
      Win32.jp_poll_events s h = (false, s)) ∧
    (∀ (s : X11.State) (h : WindowHandle), s.g_windows h = none ∨ h = 0 →
      X11.jp_poll_events s h = (false, s)) := by
  constructor
  · intro s h hh
    rcases hh with hh | hh
    · exact Win32.jp_poll_events_absent s h hh
    · simp [Win32.jp_poll_events, hh]
  · intro s h hh
    rcases hh with hh | hh
    · exact X11.x11_jp_poll_events_absent s h hh
    · exact X11.jp_poll_events_guard s h (Or.inl hh)

/-- C2, instance: polling the unknown handle `7` with a message queued for it. -/
theorem C2_poll_unregistered_witness :
    Win32.jp_poll_events (Win32.run (Win32.created true) [Win32.Op.post ⟨7, Win32.WM_CLOSE, 0, 0⟩]) 7 =
        (false, Win32.run (Win32.created true) [Win32.Op.post ⟨7, Win32.WM_CLOSE, 0, 0⟩]) ∧
      X11.jp_poll_events (X11.run X11.created [X11.Op.post ⟨X11.ClientMessage, 7, 0, 0⟩]) 7 =
        (false, X11.run X11.created [X11.Op.post ⟨X11.ClientMessage, 7, 0, 0⟩]) :=
  ⟨C2_poll_unregistered.1 _ 7 (Or.inl (by decide)),
    C2_poll_unregistered.2 _ 7 (Or.inl (by decide))⟩

/-- C3, counterexample.  Win32, process start: the handle `5` has no registry entry, yet
`jp_show_window 5`, `jp_destroy_window 5` and `jp_set_window_title 5` each issue their
native call on it. -/
theorem C3_counterexample :
    (Win32.init false).g_windows 5 = none ∧
      (Win32.jp_show_window (Win32.init false) 5).calls =
        [NativeCall.ShowWindow 5, NativeCall.UpdateWindow 5] ∧
      (Win32.jp_destroy_window (Win32.init false) 5).calls = [NativeCall.DestroyWindow 5] ∧
      (Win32.jp_set_window_title (Win32.init false) 5 "t").calls =
        [NativeCall.SetWindowTextA 5 "t"] := by
  decide

/-- C3, amended.  For a handle `h` without registry entry, `jp_set_window_title`,
`jp_destroy_window` and `jp_show_window` leave the registry, every record and the queue
as they are.  Behind the guard of the function (null handle; on X11 also no open
display) nothing at all happens; for any other unregistered handle the native call is
issued on `h` all the same, and that is the only change of state. -/
theorem C3_unregistered_handle :
    (∀ (s : Win32.State) (h : WindowHandle) (t : String), s.g_windows h = none →
      (h = 0 → Win32.jp_set_window_title s h t = s ∧ Win32.jp_destroy_window s h = s ∧
        Win32.jp_show_window s h = s) ∧
      (h ≠ 0 →
        Win32.jp_set_window_title s h t =
          { s with calls := s.calls ++ [NativeCall.SetWindowTextA h t] } ∧
        Win32.jp_destroy_window s h =
          { s with calls := s.calls ++ [NativeCall.DestroyWindow h] } ∧
        Win32.jp_show_window s h =
          { s with calls := s.calls ++ [NativeCall.ShowWindow h, NativeCall.UpdateWindow h] })) ∧
    (∀ (s : X11.State) (h : WindowHandle) (t : String), s.g_windows h = none →
      (h = 0 ∨ s.g_display = 0 → X11.jp_set_window_title s h t = s ∧
        X11.jp_destroy_window s h = s ∧ X11.jp_show_window s h = s) ∧
      (h ≠ 0 ∧ s.g_display ≠ 0 →
        X11.jp_set_window_title s h t =
          { s with calls := s.calls ++ [NativeCall.XStoreName h t, NativeCall.XFlush] } ∧
        X11.jp_destroy_window s h =
          { s with calls := s.calls ++ [NativeCall.XDestroyWindow h, NativeCall.XFlush] } ∧
        X11.jp_show_window s h =
          { s with calls := s.calls ++ [NativeCall.XMapWindow h, NativeCall.XFlush] })) := by
  constructor
  · intro s h t hd
    constructor
    · intro h0
      simp [Win32.jp_set_window_title, Win32.jp_destroy_window, Win32.jp_show_window, h0]
    · intro h0
      simp [Win32.jp_set_window_title, Win32.jp_destroy_window, Win32.jp_show_window, h0, hd]
  · intro s h t hd
    constructor
    · intro hg
      exact ⟨X11.jp_set_window_title_guard s h t hg, X11.jp_destroy_window_guard s h hg,
        X11.jp_show_window_guard s h hg⟩
    · intro hg
      simp [X11.jp_set_window_title, X11.jp_destroy_window, X11.jp_show_window, hg.1, hg.2,
        hd]

/-- C3, instance: the unknown handle `5` and the null handle in the scenario. -/
theorem C3_unregistered_handle_witness :
    Win32.jp_destroy_window (Win32.created true) 5 =
        { (Win32.created true) with
          calls := (Win32.created true).calls ++ [NativeCall.DestroyWindow 5] } ∧
      Win32.jp_show_window (Win32.created true) 0 = (Win32.created true) ∧
      X11.jp_set_window_title X11.created 5 "t" =
        { X11.created with
          calls := X11.created.calls ++ [NativeCall.XStoreName 5 "t", NativeCall.XFlush] } :=
  ⟨((C3_unregistered_handle.1 (Win32.created true) 5 "t" (by decide)).2 (by decide)).2.1,
    ((C3_unregistered_handle.1 (Win32.created true) 0 "t" (by decide)).1 rfl).2.2,
    ((C3_unregistered_handle.2 X11.created 5 "t" (by decide)).2 (by decide)).1⟩

/-- C4.  `shouldClose` is monotonic: if the record of a registered window `h` has
`shouldClose = true`, then after any sequence of operations that neither destroys `h`
nor creates it anew (polls of any window with any queued events, title changes, shows,
events entering the queue, operations on other windows) the record of `h` still has
`shouldClose = true`, and `jp_poll_events h` returns `false`. -/
theorem C4_shouldClose_monotonic :
    (∀ (s : Win32.State) (h : WindowHandle) (d : WindowData) (ops : List Win32.Op),
      s.g_windows h = some d → d.shouldClose = true →
      (∀ op ∈ ops, Win32.Op.keeps h op = true) →
      (∃ d', (Win32.run s ops).g_windows h = some d' ∧ d'.shouldClose = true) ∧
        (Win32.jp_poll_events (Win32.run s ops) h).1 = false) ∧
    (∀ (s : X11.State) (h : WindowHandle) (d : WindowData) (ops : List X11.Op),
      s.g_windows h = some d → d.shouldClose = true →
      (∀ op ∈ ops, X11.Op.keeps h op = true) →
      (∃ d', (X11.run s ops).g_windows h = some d' ∧ d'.shouldClose = true) ∧
        (X11.jp_poll_events (X11.run s ops) h).1 = false) := by
  constructor
  · intro s h d ops hd hc hk
    obtain ⟨d1, hd1, hc1⟩ := Win32.run_preserve (fun x => x.shouldClose = true)
      Win32.applyMsg_shouldClose h ops (fun _ _ _ _ x hx => hx) hk s d hd hc
    refine ⟨⟨d1, hd1, hc1⟩, ?_⟩
    by_cases h0 : h = 0
    · simp [Win32.jp_poll_events, h0]
    · rw [(Win32.jp_poll_events_registered _ h d1 h0 hd1).1, Win32.drained_shouldClose, hc1]
      rfl
  · intro s h d ops hd hc hk
    obtain ⟨d1, hd1, hc1⟩ := X11.x11_run_preserve (fun x => x.shouldClose = true)
      X11.applyEvent_shouldClose h ops (fun _ _ _ _ x hx => hx) hk s d hd hc
    refine ⟨⟨d1, hd1, hc1⟩, ?_⟩
    by_cases hg : h = 0 ∨ (X11.run s ops).g_display = 0
    · rw [X11.jp_poll_events_guard _ h hg]
    · have h0 : h ≠ 0 := fun e => hg (Or.inl e)
      have h1 : (X11.run s ops).g_display ≠ 0 := fun e => hg (Or.inr e)
      rw [(X11.x11_jp_poll_events_registered _ h d1 h0 h1 hd1).1,
        X11.foldl_applyEvent_shouldClose, hc1]
      rfl

/-- C4, instance: the scenario window after a close signal was polled, followed by a
resize and a paint message, a poll, a title change and a show. -/
theorem C4_shouldClose_monotonic_witness :
    (Win32.jp_poll_events
        (Win32.run (Win32.run (Win32.created true) [Win32.Op.post ⟨1, Win32.WM_CLOSE, 0, 0⟩,
            Win32.Op.poll 1])
          [Win32.Op.post ⟨1, Win32.WM_SIZE, 0, 31457920⟩,
            Win32.Op.post ⟨1, Win32.WM_PAINT, 0, 0⟩, Win32.Op.poll 1,
            Win32.Op.setTitle 1 "u", Win32.Op.showWindow 1]) 1).1 = false ∧
      (X11.jp_poll_events
        (X11.run (X11.run X11.created [X11.Op.post ⟨X11.DestroyNotify, 1, 0, 0⟩,
            X11.Op.poll 1])
          [X11.Op.post ⟨X11.Expose, 1, 0, 0⟩, X11.Op.poll 1, X11.Op.setTitle 1 "u",
            X11.Op.showWindow 1]) 1).1 = false :=
  ⟨(C4_shouldClose_monotonic.1 _ 1 ⟨1, true, "T", 800, 600, 0⟩ _ (by decide) rfl
      (by decide)).2,
    (C4_shouldClose_monotonic.2 _ 1 ⟨1, true, "T", 800, 600, 9⟩ _ (by decide) rfl
      (by decide)).2⟩

/-- C5, evaluation at the failing input.  X11: the window `1` of the scenario was created
800x600; a `ConfigureNotify` carrying 1024x768 is queued for it; after `jp_poll_events`
the record still has width 800 and height 600, and the event has left the queue. -/
theorem C5_x11_resize_ignored :
    (X11.jp_poll_events
        (X11.run X11.created [X11.Op.post ⟨X11.ConfigureNotify, 1, 1024, 768⟩]) 1).1 = true ∧
      (X11.jp_poll_events
        (X11.run X11.created [X11.Op.post ⟨X11.ConfigureNotify, 1, 1024, 768⟩]) 1).2.g_windows 1 =
        some ⟨1, false, "T", 800, 600, 9⟩ ∧
      (X11.jp_poll_events
        (X11.run X11.created [X11.Op.post ⟨X11.ConfigureNotify, 1, 1024, 768⟩]) 1).2.queue =
        [] := by
  decide

/-- C6, counterexample.  Win32, on either native layer: after `create("T", 800x600)` and
`show`, a poll whose queue holds a `WM_SIZE` carrying 640x480 and no close or destroy
signal returns `true` with width 640 and height 480, not 800 and 600. -/
theorem C6_counterexample :
    (Win32.pending
        (Win32.run (Win32.created false) [Win32.Op.post ⟨1, Win32.WM_SIZE, 0, 31457920⟩])
        1).any Win32.specSignal = false ∧
      (Win32.jp_poll_events
        (Win32.run (Win32.created false)
          [Win32.Op.post ⟨1, Win32.WM_SIZE, 0, 31457920⟩]) 1).1 = true ∧
      (Win32.jp_poll_events
        (Win32.run (Win32.created false)
          [Win32.Op.post ⟨1, Win32.WM_SIZE, 0, 31457920⟩]) 1).2.g_windows 1 =
        some ⟨1, false, "T", 640, 480, 0⟩ ∧
      (Win32.pending
        (Win32.run (Win32.created true) [Win32.Op.post ⟨1, Win32.WM_SIZE, 0, 31457920⟩])
        1).any Win32.specSignal = false ∧
      (Win32.jp_poll_events
        (Win32.run (Win32.created true)
          [Win32.Op.post ⟨1, Win32.WM_SIZE, 0, 31457920⟩]) 1).1 = true ∧
      (Win32.jp_poll_events
        (Win32.run (Win32.created true)
          [Win32.Op.post ⟨1, Win32.WM_SIZE, 0, 31457920⟩]) 1).2.g_windows 1 =
        some ⟨1, false, "T", 640, 480, 0⟩ := by
  decide

/-- C6, amended.  `jp_create_window` adds a registry entry exactly when the native
creation yields a valid handle.  On native failure (Win32: `CreateWindowExA` returns
null; X11: no display can be opened or `XCreateSimpleWindow` returns 0) it returns the
null handle and the registry is unchanged.  On success it returns the native handle `k`
and the registry is the old one with `k` mapped to the record with `handle = k`,
`shouldClose = false` and the given title, width and height; then `show` followed by a
poll with no close or destroy signal and no size-changed event for `k` (Win32: among the
messages pending for `k`, a pending quit message included; X11: among the queued events
addressed to `k`) returns `true` and leaves that record as created. -/
theorem C6_create_window :
    (∀ (s : Win32.State) (title : String) (width height : Int) (registerOk : Bool)
        (hwnd : WindowHandle),
      (hwnd = 0 →
        (Win32.jp_create_window s title width height registerOk hwnd).1 = 0 ∧
        (Win32.jp_create_window s title width height registerOk hwnd).2.g_windows =
          s.g_windows) ∧
      (hwnd ≠ 0 →
        (Win32.jp_create_window s title width height registerOk hwnd).1 = hwnd ∧
        (Win32.jp_create_window s title width height registerOk hwnd).2.g_windows =
          s.g_windows.insert hwnd ⟨hwnd, false, title, width, height, 0⟩ ∧
        ∀ q : List Win32.MSG,
          (Win32.pending
            { Win32.jp_show_window
                (Win32.jp_create_window s title width height registerOk hwnd).2 hwnd with
              queue := q } hwnd).any Win32.specSignal = false →
          (Win32.pending
            { Win32.jp_show_window
                (Win32.jp_create_window s title width height registerOk hwnd).2 hwnd with
              queue := q } hwnd).any Win32.sizeMsg = false →
          (Win32.jp_poll_events
            { Win32.jp_show_window
                (Win32.jp_create_window s title width height registerOk hwnd).2 hwnd with
              queue := q } hwnd).1 = true ∧
          (Win32.jp_poll_events
            { Win32.jp_show_window
                (Win32.jp_create_window s title width height registerOk hwnd).2 hwnd with
              queue := q } hwnd).2.g_windows hwnd =
            some ⟨hwnd, false, title, width, height, 0⟩)) ∧
    (∀ (s : X11.State) (title : String) (width height : Int) (dpy : Nat) (screen : Int)
        (window : WindowHandle),
      ((s.g_display = 0 ∧ dpy = 0) ∨ window = 0 →
        (X11.jp_create_window s title width height dpy screen window).1 = 0 ∧
        (X11.jp_create_window s title width height dpy screen window).2.g_windows =
          s.g_windows) ∧
      (¬ (s.g_display = 0 ∧ dpy = 0) ∧ window ≠ 0 →
        (X11.jp_create_window s title width height dpy screen window).1 = window ∧
        (X11.jp_create_window s title width height dpy screen window).2.g_windows =
          s.g_windows.insert window
            ⟨window, false, title, width, height,
              if s.g_display = 0 then dpy else s.g_display⟩ ∧
        ∀ q : List X11.XEvent,
          (X11.addressed q window).any X11.closeSignal = false →
          (X11.addressed q window).any X11.sizeEvent = false →
          (X11.jp_poll_events
            { X11.jp_show_window
                (X11.jp_create_window s title width height dpy screen window).2 window with
              queue := q } window).1 = true ∧
          (X11.jp_poll_events
            { X11.jp_show_window
                (X11.jp_create_window s title width height dpy screen window).2 window with
              queue := q } window).2.g_windows window =
            some ⟨window, false, title, width, height,
              if s.g_display = 0 then dpy else s.g_display⟩)) := by
  constructor
  · intro s title width height registerOk hwnd
    constructor
    · intro h0
      subst h0
      exact ⟨(Win32.jp_create_window_fail s title width height registerOk).1,
        (Win32.jp_create_window_fail s title width height registerOk).2.1⟩
    · intro h0
      obtain ⟨e1, e2, _⟩ := Win32.jp_create_window_ok s title width height registerOk hwnd h0
      refine ⟨e1, e2, ?_⟩
      intro q hc hs
      have hd : ({ Win32.jp_show_window
            (Win32.jp_create_window s title width height registerOk hwnd).2 hwnd with
          queue := q } : Win32.State).g_windows hwnd =
          some ⟨hwnd, false, title, width, height, 0⟩ := by
        show (Win32.jp_show_window _ _).g_windows hwnd = _
        rw [(Win32.jp_show_window_frame _ hwnd).1, e2, Registry.insert_same]
      obtain ⟨r1, r2, _⟩ := Win32.jp_poll_events_registered _ hwnd _ h0 hd
      obtain ⟨q1, q2, q3⟩ := Win32.pending_quiet _ hwnd hc hs
      rw [Win32.drained_idle _ _ _ _ q1 q2 q3] at r1 r2
      exact ⟨r1, r2⟩
  · intro s title width height dpy screen window
    constructor
    · intro hf
      exact ⟨(X11.x11_jp_create_window_fail s title width height dpy screen window hf).1,
        (X11.x11_jp_create_window_fail s title width height dpy screen window hf).2.1⟩
    · intro hok
      obtain ⟨e1, e2, _, e4⟩ :=
        X11.x11_jp_create_window_ok s title width height dpy screen window hok.1 hok.2
      refine ⟨e1, e2, ?_⟩
      intro q hc _
      have hd : ({ X11.jp_show_window
            (X11.jp_create_window s title width height dpy screen window).2 window with
          queue := q } : X11.State).g_windows window =
          some ⟨window, false, title, width, height,
            if s.g_display = 0 then dpy else s.g_display⟩ := by
        show (X11.jp_show_window _ _).g_windows window = _
        rw [(X11.x11_jp_show_window_frame _ window).1, e2, Registry.insert_same]
      have hdpy : ({ X11.jp_show_window
            (X11.jp_create_window s title width height dpy screen window).2 window with
          queue := q } : X11.State).g_display ≠ 0 := by
        show (X11.jp_show_window _ _).g_display ≠ 0
        rw [(X11.x11_jp_show_window_frame _ window).2.2]
        exact e4
      obtain ⟨r1, r2, _⟩ := X11.x11_jp_poll_events_registered _ window _ hok.2 hdpy hd
      have hq : X11.pending ({ X11.jp_show_window
            (X11.jp_create_window s title width height dpy screen window).2 window with
          queue := q } : X11.State).queue window = X11.pending q window := rfl
      rw [hq, X11.foldl_applyEvent_idle _ _
        (X11.pending_any_of_addressed q window _ hc)] at r1 r2
      exact ⟨r1, r2⟩

/-- C6, instance: title "T", 800x600, native handle `1`, a paint request queued. -/
theorem C6_create_window_witness :
    (Win32.jp_poll_events
        { Win32.jp_show_window
            (Win32.jp_create_window (Win32.init true) "T" 800 600 true 1).2 1 with
          queue := [⟨1, Win32.WM_PAINT, 0, 0⟩] } 1).1 = true ∧
      (Win32.jp_poll_events
        { Win32.jp_show_window
            (Win32.jp_create_window (Win32.init true) "T" 800 600 true 1).2 1 with
          queue := [⟨1, Win32.WM_PAINT, 0, 0⟩] } 1).2.g_windows 1 =
        some ⟨1, false, "T", 800, 600, 0⟩ ∧
      (X11.jp_create_window X11.init "T" 800 600 0 0 1).1 = 0 ∧
      (X11.jp_poll_events
        { X11.jp_show_window (X11.jp_create_window X11.init "T" 800 600 9 0 1).2 1 with
          queue := [⟨X11.Expose, 1, 0, 0⟩] } 1).1 = true :=
  ⟨(((C6_create_window.1 (Win32.init true) "T" 800 600 true 1).2 (by decide)).2.2
      [⟨1, Win32.WM_PAINT, 0, 0⟩] (by decide) (by decide)).1,
    (((C6_create_window.1 (Win32.init true) "T" 800 600 true 1).2 (by decide)).2.2
      [⟨1, Win32.WM_PAINT, 0, 0⟩] (by decide) (by decide)).2,
    ((C6_create_window.2 X11.init "T" 800 600 0 0 1).1 (Or.inl ⟨rfl, rfl⟩)).1,
    (((C6_create_window.2 X11.init "T" 800 600 9 0 1).2 ⟨by decide, by decide⟩).2.2
      [⟨X11.Expose, 1, 0, 0⟩] (by decide) (by decide)).1⟩

/-- C7.  After a successful `jp_create_window` handing out `k`, `jp_destroy_window k`
leaves the registry without `k`, and any later `jp_poll_events k`, whatever is queued,
returns `false` and gives back the state it was called in. -/
theorem C7_create_destroy_poll :
    (∀ (s : Win32.State) (title : String) (width height : Int) (registerOk : Bool)
        (k : WindowHandle) (q : List Win32.MSG), k ≠ 0 →
      (Win32.jp_destroy_window
        (Win32.jp_create_window s title width height registerOk k).2 k).g_windows k = none ∧
      Win32.jp_poll_events
        { Win32.jp_destroy_window
            (Win32.jp_create_window s title width height registerOk k).2 k with
          queue := q } k =
        (false, { Win32.jp_destroy_window
            (Win32.jp_create_window s title width height registerOk k).2 k with
          queue := q })) ∧
    (∀ (s : X11.State) (title : String) (width height : Int) (dpy : Nat) (screen : Int)
        (k : WindowHandle) (q : List X11.XEvent), ¬ (s.g_display = 0 ∧ dpy = 0) → k ≠ 0 →
      (X11.jp_destroy_window
        (X11.jp_create_window s title width height dpy screen k).2 k).g_windows k = none ∧
      X11.jp_poll_events
        { X11.jp_destroy_window
            (X11.jp_create_window s title width height dpy screen k).2 k with
          queue := q } k =
        (false, { X11.jp_destroy_window
            (X11.jp_create_window s title width height dpy screen k).2 k with
          queue := q })) := by
  constructor
  · intro s title width height registerOk k q h0
    have e := Win32.jp_destroy_window_same
      (Win32.jp_create_window s title width height registerOk k).2 k h0
    exact ⟨e, Win32.jp_poll_events_absent _ k e⟩
  · intro s title width height dpy screen k q h1 h0
    have e := X11.x11_jp_destroy_window_same
      (X11.jp_create_window s title width height dpy screen k).2 k h0
      (X11.x11_jp_create_window_ok s title width height dpy screen k h1 h0).2.2.2
    exact ⟨e, X11.x11_jp_poll_events_absent _ k e⟩

/-- C7, instance: create "T" 800x600 as handle `1`, destroy it, poll with a close
signal queued for it. -/
theorem C7_create_destroy_poll_witness :
    (Win32.jp_poll_events
        { Win32.jp_destroy_window (Win32.jp_create_window (Win32.init true) "T" 800 600 true 1).2 1 with
          queue := [⟨1, Win32.WM_CLOSE, 0, 0⟩] } 1).1 = false ∧
      (X11.jp_destroy_window
        (X11.jp_create_window X11.init "T" 800 600 9 0 1).2 1).g_windows 1 = none :=
  ⟨congrArg Prod.fst
      (C7_create_destroy_poll.1 (Win32.init true) "T" 800 600 true 1 [⟨1, Win32.WM_CLOSE, 0, 0⟩]
        (by decide)).2,
    (C7_create_destroy_poll.2 X11.init "T" 800 600 9 0 1 [] (by decide) (by decide)).1⟩

/-- C8.  In a state that satisfies the registry invariant (every state reached from
process start does, see `run_inv`), let `h` be registered.  After any earlier operations
`ops1` that keep `h` alive (they may set other titles on `h`), `jp_set_window_title h t`
makes the cached title `t`, and it still is `t` after any later operations `ops2` that
keep `h` alive and set no title on it: polls of `h` with any queued events (paint,
expose, resize, close), events entering the queue, shows, operations on other windows.
So the cached title is the last string set. -/
theorem C8_title_cached :
    (∀ (s : Win32.State) (h : WindowHandle) (d : WindowData) (t : String)
        (ops1 ops2 : List Win32.Op),
      Win32.Inv s → s.g_windows h = some d →
      (∀ op ∈ ops1, Win32.Op.keeps h op = true) →
      (∀ op ∈ ops2, Win32.Op.keepsTitle h op = true) →
      ∃ d', (Win32.run (Win32.jp_set_window_title (Win32.run s ops1) h t) ops2).g_windows h =
          some d' ∧ d'.title = t) ∧
    (∀ (s : X11.State) (h : WindowHandle) (d : WindowData) (t : String)
        (ops1 ops2 : List X11.Op),
      X11.Inv s → s.g_windows h = some d →
      (∀ op ∈ ops1, X11.Op.keeps h op = true) →
      (∀ op ∈ ops2, X11.Op.keepsTitle h op = true) →
      ∃ d', (X11.run (X11.jp_set_window_title (X11.run s ops1) h t) ops2).g_windows h =
          some d' ∧ d'.title = t) := by
  constructor
  · intro s h d t ops1 ops2 hI hd hk1 hk2
    obtain ⟨d1, hd1, _⟩ := Win32.run_preserve (fun _ => True) (fun _ _ _ => trivial) h ops1
      (fun _ _ _ _ _ _ => trivial) hk1 s d hd trivial
    have hI1 := Win32.run_inv ops1 s hI
    have hset := Win32.jp_set_window_title_same (Win32.run s ops1) h t d1 (hI1 h d1 hd1).1 hd1
    refine Win32.run_preserve (fun x => x.title = t)
      (fun x m hx => (Win32.applyMsg_title x m).trans hx) h ops2 ?_
      (fun op ho => Win32.keeps_of_keepsTitle h op (hk2 op ho)) _ _ hset rfl
    intro op ho t2 e
    have := hk2 op ho
    rw [e] at this
    simp [Win32.Op.keepsTitle] at this
  · intro s h d t ops1 ops2 hI hd hk1 hk2
    obtain ⟨d1, hd1, _⟩ := X11.x11_run_preserve (fun _ => True) (fun _ _ _ => trivial) h ops1
      (fun _ _ _ _ _ _ => trivial) hk1 s d hd trivial
    have hI1 := X11.x11_run_inv ops1 s hI
    obtain ⟨a, _, c⟩ := hI1 h d1 hd1
    have hset := X11.x11_jp_set_window_title_same (X11.run s ops1) h t d1 a c hd1
    refine X11.x11_run_preserve (fun x => x.title = t)
      (fun x e hx => (X11.applyEvent_title x e).trans hx) h ops2 ?_
      (fun op ho => X11.x11_keeps_of_keepsTitle h op (hk2 op ho)) _ _ hset rfl
    intro op ho t2 e
    have := hk2 op ho
    rw [e] at this
    simp [X11.Op.keepsTitle] at this

/-- C8, instance: in the scenario the title is set to "a" and then to "b" before the
first poll; paint, resize and close events arrive and the window is polled twice. -/
theorem C8_title_cached_witness :
    (∃ d', (Win32.run (Win32.jp_set_window_title
          (Win32.run (Win32.created true) [Win32.Op.setTitle 1 "a"]) 1 "b")
        [Win32.Op.post ⟨1, Win32.WM_PAINT, 0, 0⟩, Win32.Op.post ⟨1, Win32.WM_SIZE, 0, 31457920⟩,
          Win32.Op.poll 1, Win32.Op.post ⟨1, Win32.WM_CLOSE, 0, 0⟩,
          Win32.Op.poll 1]).g_windows 1 = some d' ∧ d'.title = "b") ∧
      (∃ d', (X11.run (X11.jp_set_window_title
          (X11.run X11.created [X11.Op.setTitle 1 "a"]) 1 "b")
        [X11.Op.post ⟨X11.Expose, 1, 0, 0⟩, X11.Op.poll 1,
          X11.Op.post ⟨X11.ClientMessage, 1, 0, 0⟩,
          X11.Op.poll 1]).g_windows 1 = some d' ∧ d'.title = "b") :=
  ⟨C8_title_cached.1 (Win32.created true) 1 ⟨1, false, "T", 800, 600, 0⟩ "b" _ _
      (Win32.run_inv _ _ (Win32.init_inv _)) (by decide) (by decide) (by decide),
    C8_title_cached.2 X11.created 1 ⟨1, false, "T", 800, 600, 9⟩ "b" _ _
      (X11.x11_run_inv _ _ X11.x11_init_inv) (by decide) (by decide) (by decide)⟩

/-- C9.  In a state that satisfies the registry invariant, for a registered window with
`shouldClose = false` and no event pending for it (in particular an empty queue, on
Win32 with no quit message pending),
`jp_poll_events` returns `true` and gives back the state it was called in: width, height
and title of the record, and the rest of the registry, are unchanged. -/
theorem C9_poll_idle :
    (∀ (s : Win32.State) (h : WindowHandle) (d : WindowData),
      Win32.Inv s → s.g_windows h = some d → d.shouldClose = false →
      Win32.pending s h = [] → Win32.jp_poll_events s h = (true, s)) ∧
    (∀ (s : X11.State) (h : WindowHandle) (d : WindowData),
      X11.Inv s → s.g_windows h = some d → d.shouldClose = false →
      X11.pending s.queue h = [] → X11.jp_poll_events s h = (true, s)) := by
  constructor
  · intro s h d hI hd hc hq
    have h0 := (hI h d hd).1
    simp [Win32.jp_poll_events, h0, hd,
      Win32.pollLoop_idle _ h s ((Win32.PeekMessageA_none s h).mpr hq), hc]
  · intro s h d hI hd hc hq
    obtain ⟨a, _, c⟩ := hI h d hd
    simp [X11.jp_poll_events, a, c, hd, X11.x11_pollLoop_idle _ h s hq, hc]

/-- C9, instance: the scenario window right after creation and show. -/
theorem C9_poll_idle_witness :
    Win32.jp_poll_events (Win32.created true) 1 = (true, (Win32.created true)) ∧
      X11.jp_poll_events X11.created 1 = (true, X11.created) :=
  ⟨C9_poll_idle.1 (Win32.created true) 1 ⟨1, false, "T", 800, 600, 0⟩
      (Win32.run_inv _ _ (Win32.init_inv _)) (by decide) rfl (by decide),
    C9_poll_idle.2 X11.created 1 ⟨1, false, "T", 800, 600, 9⟩
      (X11.x11_run_inv _ _ X11.x11_init_inv) (by decide) rfl (by decide)⟩

/-- C10.  Window isolation: for distinct handles `h` and `k` with `k` registered,
`jp_poll_events h` (whatever is queued), `jp_set_window_title h t` and
`jp_destroy_window h` leave `k` registered with the very same record. -/
theorem C10_window_isolation :
    (∀ (s : Win32.State) (h k : WindowHandle) (d : WindowData) (t : String),
      h ≠ k → s.g_windows k = some d →
      (Win32.jp_poll_events s h).2.g_windows k = some d ∧
      (Win32.jp_set_window_title s h t).g_windows k = some d ∧
      (Win32.jp_destroy_window s h).g_windows k = some d) ∧
    (∀ (s : X11.State) (h k : WindowHandle) (d : WindowData) (t : String),
      h ≠ k → s.g_windows k = some d →
      (X11.jp_poll_events s h).2.g_windows k = some d ∧
      (X11.jp_set_window_title s h t).g_windows k = some d ∧
      (X11.jp_destroy_window s h).g_windows k = some d) := by
  constructor
  · intro s h k d t hne hd
    have hk : k ≠ h := fun e => hne e.symm
    exact ⟨by rw [Win32.jp_poll_events_other s h k hk]; exact hd,
      by rw [Win32.jp_set_window_title_other s h k t hk]; exact hd,
      by rw [Win32.jp_destroy_window_other s h k hk]; exact hd⟩
  · intro s h k d t hne hd
    have hk : k ≠ h := fun e => hne e.symm
    exact ⟨by rw [X11.x11_jp_poll_events_other s h k hk]; exact hd,
      by rw [X11.x11_jp_set_window_title_other s h k t hk]; exact hd,
      by rw [X11.x11_jp_destroy_window_other s h k hk]; exact hd⟩

/-- C10, instance: two windows `1` and `2`; a close signal for `2` is polled, `2` gets a
title and is destroyed; the record of `1` stays as created. -/
theorem C10_window_isolation_witness :
    (Win32.jp_poll_events
        (Win32.run (Win32.created true) [Win32.Op.create "U" 320 200 true 2,
          Win32.Op.post ⟨2, Win32.WM_CLOSE, 0, 0⟩]) 2).2.g_windows 1 =
        some ⟨1, false, "T", 800, 600, 0⟩ ∧
      (X11.jp_destroy_window
        (X11.run X11.created [X11.Op.create "U" 320 200 9 0 2]) 2).g_windows 1 =
        some ⟨1, false, "T", 800, 600, 9⟩ :=
  ⟨(C10_window_isolation.1 _ 2 1 ⟨1, false, "T", 800, 600, 0⟩ "u" (by decide)
      (by decide)).1,
    (C10_window_isolation.2 _ 2 1 ⟨1, false, "T", 800, 600, 9⟩ "u" (by decide)
      (by decide)).2.2⟩

end JPWindow
